import Mathlib

/-!
Verification of the go-qbittorrent-webapi client library.

This file shallowly embeds the transcoding and session layers of the Go
client for the qBittorrent WebUI API and proves properties of the embedded
definitions.  Machine integers are modelled with Nat/Int; where the Go code
converts integers through float64 (helpers.go, GetSpeedFromBytes and
Speed.ToBytes), the IEEE-754 round-to-nearest-even conversion is modelled
exactly on integers.
-/

set_option linter.unreachableTactic false
set_option linter.unnecessarySeqFocus false
set_option linter.unusedTactic false
set_option linter.flexible false
set_option maxRecDepth 8192

namespace QbtApi

/-! ## Binary logarithm

Fuel-based floor of log2, adequate for every value below 2 ^ 128 (wire
integers are 64-bit, and intermediate bit counts stay below 2 ^ 67). -/

/-- Auxiliary fuel-based binary logarithm. -/
def natLog2Aux : Nat → Nat → Nat
  | 0, _ => 0
  | fuel + 1, n => if 2 ≤ n then natLog2Aux fuel (n / 2) + 1 else 0

/-- Floor of the binary logarithm, correct for inputs below 2 ^ 128. -/
def natLog2 (n : Nat) : Nat := natLog2Aux 128 n

theorem natLog2Aux_spec : ∀ fuel n, 1 ≤ n → n < 2 ^ fuel →
    2 ^ natLog2Aux fuel n ≤ n ∧ n < 2 ^ (natLog2Aux fuel n + 1) := by
  intro fuel
  induction fuel with
  | zero => intro n h1 h2; omega
  | succ f ih =>
    intro n h1 h2
    unfold natLog2Aux
    by_cases h : 2 ≤ n
    · simp only [if_pos h]
      have hd1 : 1 ≤ n / 2 := Nat.one_le_div_iff (by omega) |>.mpr h
      have hd2 : n / 2 < 2 ^ f := by
        have hdd : n / 2 < 2 ^ (f + 1) / 2 := Nat.div_lt_div_of_lt_of_dvd ⟨2 ^ f, by ring⟩ h2
        have he : 2 ^ (f + 1) / 2 = 2 ^ f := by
          rw [Nat.pow_succ, Nat.mul_div_cancel _ (by norm_num)]
        omega
      obtain ⟨l, r⟩ := ih (n / 2) hd1 hd2
      constructor
      · calc 2 ^ (natLog2Aux f (n / 2) + 1) = 2 ^ natLog2Aux f (n / 2) * 2 := by ring
        _ ≤ n / 2 * 2 := by omega
        _ ≤ n := by omega
      · have hr : n / 2 + 1 ≤ 2 ^ (natLog2Aux f (n / 2) + 1) := r
        calc n < (n / 2 + 1) * 2 := by omega
        _ ≤ 2 ^ (natLog2Aux f (n / 2) + 1) * 2 := by omega
        _ = 2 ^ (natLog2Aux f (n / 2) + 1 + 1) := by ring
    · simp only [if_neg h]
      omega

theorem natLog2_spec {n : Nat} (h1 : 1 ≤ n) (h2 : n < 2 ^ 128) :
    2 ^ natLog2 n ≤ n ∧ n < 2 ^ (natLog2 n + 1) :=
  natLog2Aux_spec 128 n h1 h2

theorem natLog2_unique {n k : Nat} (hn : n < 2 ^ 128) (h1 : 2 ^ k ≤ n)
    (h2 : n < 2 ^ (k + 1)) : natLog2 n = k := by
  have h0 : 1 ≤ n := le_trans Nat.one_le_two_pow h1
  obtain ⟨l, r⟩ := natLog2_spec h0 hn
  by_contra hne
  rcases Nat.lt_or_ge (natLog2 n) k with hlt | hge
  · have : 2 ^ (natLog2 n + 1) ≤ 2 ^ k := Nat.pow_le_pow_right (by norm_num) (by omega)
    omega
  · have hk : k + 1 ≤ natLog2 n := by omega
    have : 2 ^ (k + 1) ≤ 2 ^ natLog2 n := Nat.pow_le_pow_right (by norm_num) hk
    omega

/-! ## IEEE-754 float64 rounding of integers

Models the Go conversion float64(n) for integer n: round to nearest with 53
significand bits, ties to even.  Exact for every integer whose magnitude is
below 2 ^ 53. -/

/-- Rounding granularity of a natural number at 53 significand bits: one
unit in the last place of the float64 nearest to n. -/
def f64gran (n : Nat) : Nat := 2 ^ (natLog2 n - 52)

/-- Round a natural number to the nearest float64-representable integer
(53 significand bits, ties to even).  Faithful for inputs below 2 ^ 128. -/
def float64RoundNat (n : Nat) : Nat :=
  if n < 2 ^ 53 then n
  else
    if 2 * (n % f64gran n) < f64gran n then n / f64gran n * f64gran n
    else if f64gran n < 2 * (n % f64gran n) then (n / f64gran n + 1) * f64gran n
    else if n / f64gran n % 2 = 0 then n / f64gran n * f64gran n
    else (n / f64gran n + 1) * f64gran n

/-- Round an integer to the nearest float64-representable integer: models
the Go conversion float64(i) for an integer-typed argument. -/
def floatRoundInt (i : Int) : Int :=
  if 0 ≤ i then (float64RoundNat i.toNat : Int)
  else -(float64RoundNat (-i).toNat : Int)

theorem f64gran_pos (n : Nat) : 0 < f64gran n := Nat.pos_pow_of_pos _ (by norm_num)

theorem float64RoundNat_of_lt {n : Nat} (h : n < 2 ^ 53) :
    float64RoundNat n = n := by
  unfold float64RoundNat
  rw [if_pos h]

theorem float64RoundNat_of_dvd {n : Nat} (h : 2 ^ 53 ≤ n)
    (hdvd : f64gran n ∣ n) : float64RoundNat n = n := by
  unfold float64RoundNat
  rw [if_neg (by omega)]
  have hg : 0 < f64gran n := f64gran_pos n
  have hr : n % f64gran n = 0 := Nat.mod_eq_zero_of_dvd hdvd
  rw [hr]
  rw [if_pos (by omega)]
  exact Nat.div_mul_cancel hdvd

theorem float64RoundNat_fix_dvd {n : Nat} (h : 2 ^ 53 ≤ n)
    (hfix : float64RoundNat n = n) : f64gran n ∣ n := by
  unfold float64RoundNat at hfix
  rw [if_neg (by omega)] at hfix
  have hg : 0 < f64gran n := f64gran_pos n
  have hqr : f64gran n * (n / f64gran n) + n % f64gran n = n := Nat.div_add_mod n (f64gran n)
  have hrlt : n % f64gran n < f64gran n := Nat.mod_lt _ hg
  have hexp : (n / f64gran n + 1) * f64gran n = n / f64gran n * f64gran n + f64gran n := by ring
  have hcomm : f64gran n * (n / f64gran n) = n / f64gran n * f64gran n := by ring
  rw [hcomm] at hqr
  refine Nat.dvd_of_mod_eq_zero ?_
  by_cases h1 : 2 * (n % f64gran n) < f64gran n
  · rw [if_pos h1] at hfix
    omega
  · rw [if_neg h1] at hfix
    by_cases h2 : f64gran n < 2 * (n % f64gran n)
    · rw [if_pos h2] at hfix
      omega
    · rw [if_neg h2] at hfix
      by_cases h3 : n / f64gran n % 2 = 0
      · rw [if_pos h3] at hfix
        omega
      · rw [if_neg h3] at hfix
        omega

theorem float64RoundNat_pos {n : Nat} (h1 : 1 ≤ n) (h2 : n < 2 ^ 128) :
    1 ≤ float64RoundNat n := by
  unfold float64RoundNat
  by_cases h : n < 2 ^ 53
  · rw [if_pos h]; omega
  · rw [if_neg h]
    obtain ⟨l, r⟩ := natLog2_spec h1 h2
    have hg : 0 < f64gran n := f64gran_pos n
    have hgle : f64gran n ≤ 2 ^ natLog2 n :=
      Nat.pow_le_pow_right (by norm_num) (by omega)
    have hq : 1 ≤ n / f64gran n := (Nat.one_le_div_iff hg).mpr (by omega)
    have hqg : 1 ≤ n / f64gran n * f64gran n := Nat.one_le_iff_ne_zero.mpr (by positivity)
    have hexp : (n / f64gran n + 1) * f64gran n = n / f64gran n * f64gran n + f64gran n := by
      ring
    split_ifs <;> omega

theorem natLog2_mul8 {n : Nat} (h1 : 2 ^ 50 ≤ n) (h2 : n < 2 ^ 125) :
    natLog2 (8 * n) = natLog2 n + 3 := by
  have hn1 : 1 ≤ n := by omega
  obtain ⟨l, r⟩ := natLog2_spec hn1 (by omega)
  refine natLog2_unique (by omega) ?_ ?_
  · calc 2 ^ (natLog2 n + 3) = 8 * 2 ^ natLog2 n := by ring
    _ ≤ 8 * n := by omega
  · calc 8 * n < 8 * 2 ^ (natLog2 n + 1) := by omega
    _ = 2 ^ (natLog2 n + 3 + 1) := by ring

theorem float64RoundNat_mul8 {n : Nat} (hfix : float64RoundNat n = n)
    (hlt : n < 2 ^ 61) : float64RoundNat (8 * n) = 8 * n := by
  by_cases hsmall : 8 * n < 2 ^ 53
  · exact float64RoundNat_of_lt hsmall
  · have h8 : 2 ^ 53 ≤ 8 * n := by omega
    have hn50 : 2 ^ 50 ≤ n := by omega
    have hlog : natLog2 (8 * n) = natLog2 n + 3 := natLog2_mul8 hn50 (by omega)
    by_cases hcase : n < 2 ^ 53
    · -- n itself is below 2 ^ 53, so natLog2 n ≤ 52 and the granularity of
      -- 8 * n divides 8.
      have hn1 : 1 ≤ n := by omega
      obtain ⟨l, r⟩ := natLog2_spec hn1 (by omega)
      have hle : natLog2 n ≤ 52 := by
        by_contra hc
        have : 2 ^ 53 ≤ 2 ^ natLog2 n := Nat.pow_le_pow_right (by norm_num) (by omega)
        omega
      refine float64RoundNat_of_dvd h8 ?_
      unfold f64gran
      rw [hlog]
      have hsub : natLog2 n + 3 - 52 ≤ 3 := by omega
      have hd8 : (2 : Nat) ^ (natLog2 n + 3 - 52) ∣ 8 :=
        dvd_trans (pow_dvd_pow 2 hsub) (by norm_num)
      exact dvd_mul_of_dvd_left hd8 n
    · have hge : 2 ^ 53 ≤ n := by omega
      have hdvd : f64gran n ∣ n := float64RoundNat_fix_dvd hge hfix
      refine float64RoundNat_of_dvd h8 ?_
      unfold f64gran at hdvd ⊢
      rw [hlog]
      have hle : 53 ≤ natLog2 n := by
        obtain ⟨l, r⟩ := natLog2_spec (by omega) (show n < 2 ^ 128 by omega)
        by_contra hc
        have : 2 ^ (natLog2 n + 1) ≤ 2 ^ 53 := Nat.pow_le_pow_right (by norm_num) (by omega)
        omega
      have heq : natLog2 n + 3 - 52 = natLog2 n - 52 + 3 := by omega
      rw [heq, pow_add, Nat.mul_comm 8 n]
      exact mul_dvd_mul hdvd (by norm_num)

/-! ## Speed quantities (helpers.go and the external cunits v3 dependency)

cunits v3 (an external dependency of the repository) stores sizes and rates
as a uint64 count of bits.  Its two operations used here are modelled from
its documented contract: ImportInBytes(size float64) returns Bits(size * 8)
(the multiplication by 8 is exact in float64 at these magnitudes), and
Bytes() returns float64(bits) / 8 (one rounding for the uint64-to-float64
conversion; the division by 8 is exact).

The Go conversion from a float64 value outside [0, 2 ^ 64) to uint64 is
implementation-dependent; goFloatToUint64 fixes the amd64 behaviour.
Every theorem below that depends on the conversion restricts itself to
values where Go defines the result, except where noted. -/

/-- Go float64-to-uint64 conversion of an integer-valued float, as compiled
on amd64.  In-range values (0 to 2 ^ 64 - 1) convert exactly; the
out-of-range behaviour is implementation-dependent in Go and is modelled
here as the amd64 instruction sequence computes it. -/
def goFloatToUint64 (v : Int) : Nat :=
  if v < 2 ^ 63 then
    if -(2 ^ 63) ≤ v then (v.emod (2 ^ 64)).toNat else 2 ^ 63
  else if v < 2 ^ 64 then v.toNat
  else 0

/-- Bits count produced by cunits.ImportInBytes for an integer-valued
float64 argument. -/
def cunitsImportInBytes (size : Int) : Nat := goFloatToUint64 (size * 8)

/-- Speed wraps a cunits.Speed, which is a uint64 count of bits
(helpers.go). -/
structure Speed where
  bits : Nat
deriving DecidableEq, Repr

/-- Sentinel for an unlimited rate: all bits set (math.MaxUint64),
helpers.go. -/
def unlimitedSpeedLimit : Speed := ⟨2 ^ 64 - 1⟩

/-- Speed.Unlimited: equality test against the sentinel (helpers.go). -/
def Speed.Unlimited (s : Speed) : Bool := decide (s = unlimitedSpeedLimit)

/-- GetSpeedFromBytes (helpers.go): -1 maps to the unlimited sentinel, any
other integer is converted through float64 and imported as a byte count. -/
def GetSpeedFromBytes (bytes : Int) : Speed :=
  if bytes = -1 then unlimitedSpeedLimit
  else ⟨cunitsImportInBytes (floatRoundInt bytes)⟩

/-- Integer byte count produced by int(bits.Bytes()): one float64 rounding
for the uint64 bit count, an exact division by 8, and a truncation toward
zero (a floor, as the value is nonnegative). -/
def cunitsBytesTrunc (bits : Nat) : Nat := float64RoundNat bits / 8

/-- Speed.ToBytes (helpers.go): -1 for the unlimited sentinel, otherwise
int(s.Bytes()). -/
def Speed.ToBytes (s : Speed) : Int :=
  if s.Unlimited then -1 else (cunitsBytesTrunc s.bits : Int)

theorem floatRoundInt_fix_nat {n : Int} (h0 : 0 ≤ n) (hfix : floatRoundInt n = n) :
    float64RoundNat n.toNat = n.toNat := by
  unfold floatRoundInt at hfix
  rw [if_pos h0] at hfix
  omega

/-- Core round-trip lemma for speeds: an exactly representable nonnegative
byte count below 2 ^ 61 survives GetSpeedFromBytes then ToBytes. -/
theorem speed_roundtrip {n : Int} (h0 : 0 ≤ n) (h61 : n < 2 ^ 61)
    (hfix : floatRoundInt n = n) : (GetSpeedFromBytes n).ToBytes = n := by
  have hne : n ≠ -1 := by omega
  have hnat : float64RoundNat n.toNat = n.toNat := floatRoundInt_fix_nat h0 hfix
  unfold GetSpeedFromBytes
  rw [if_neg hne, hfix]
  have hbits : cunitsImportInBytes n = 8 * n.toNat := by
    unfold cunitsImportInBytes goFloatToUint64
    by_cases hc : n * 8 < 2 ^ 63
    · rw [if_pos hc, if_pos (by omega)]
      have hmod : (n * 8).emod (2 ^ 64) = n * 8 := Int.emod_eq_of_lt (by omega) (by omega)
      omega
    · rw [if_neg hc, if_pos (by omega)]
      omega
  rw [hbits]
  have h8fix : float64RoundNat (8 * n.toNat) = 8 * n.toNat :=
    float64RoundNat_mul8 hnat (by omega)
  have hunl : Speed.Unlimited ⟨8 * n.toNat⟩ = false := by
    simp only [Speed.Unlimited, unlimitedSpeedLimit, decide_eq_false_iff_not]
    intro hcontra
    have hb : 8 * n.toNat = 2 ^ 64 - 1 := congrArg Speed.bits hcontra
    omega
  unfold Speed.ToBytes
  rw [hunl]
  simp only [Bool.false_eq_true, if_false, cunitsBytesTrunc]
  rw [h8fix]
  omega

/-- In every branch of the amd64 float-to-uint64 conversion of a multiple
of 8, the result differs from the odd sentinel value 2 ^ 64 - 1. -/
theorem goFloatToUint64_mul8_ne_max (m : Int) :
    goFloatToUint64 (m * 8) ≠ 2 ^ 64 - 1 := by
  unfold goFloatToUint64
  by_cases h1 : m * 8 < 2 ^ 63
  · rw [if_pos h1]
    by_cases h2 : -(2 ^ 63) ≤ m * 8
    · rw [if_pos h2]
      have hmod1 : 0 ≤ (m * 8).emod (2 ^ 64) := Int.emod_nonneg _ (by norm_num)
      intro hcontra
      have heq : m * 8 % 2 ^ 64 = ((2 ^ 64 - 1 : Nat) : Int) := by
        rw [← hcontra, Int.toNat_of_nonneg hmod1]
        rfl
      have hpar : m * 8 % 2 ^ 64 % 2 = m * 8 % 2 := Int.emod_emod_of_dvd _ (by norm_num)
      have hm2 : m * 8 % 2 = 0 := by omega
      rw [heq, hm2] at hpar
      norm_num at hpar
    · rw [if_neg h2]
      intro hcontra
      omega
  · rw [if_neg h1]
    by_cases h3 : m * 8 < 2 ^ 64
    · rw [if_pos h3]
      intro hcontra
      have hnn : 0 ≤ m * 8 := by omega
      have heq : m * 8 = ((2 ^ 64 - 1 : Nat) : Int) := by
        rw [← hcontra, Int.toNat_of_nonneg hnn]
      have hm2 : m * 8 % 2 = 0 := by omega
      rw [heq] at hm2
      norm_num at hm2
    · rw [if_neg h3]
      intro hcontra
      omega

/-- A nonnegative wire integer never produces the unlimited sentinel: the
bit count is a multiple of 8 in every conversion branch, while the sentinel
is odd. -/
theorem speed_not_unlimited {n : Int} (h0 : 0 ≤ n) :
    (GetSpeedFromBytes n).Unlimited = false := by
  have hne : n ≠ -1 := by omega
  unfold GetSpeedFromBytes
  rw [if_neg hne]
  simp only [Speed.Unlimited, unlimitedSpeedLimit, decide_eq_false_iff_not]
  intro hcontra
  exact goFloatToUint64_mul8_ne_max (floatRoundInt n) (congrArg Speed.bits hcontra)

/-- For inputs below -1 GetSpeedFromBytes performs no validation: it takes
the default conversion branch and returns a Speed value, never an error
(its signature has no error result) and never the unlimited sentinel. -/
theorem speed_below_neg_one {n : Int} (hn : n < -1) :
    GetSpeedFromBytes n = ⟨cunitsImportInBytes (floatRoundInt n)⟩ ∧
      (GetSpeedFromBytes n).Unlimited = false := by
  have hne : n ≠ -1 := by omega
  have hbranch : GetSpeedFromBytes n = ⟨cunitsImportInBytes (floatRoundInt n)⟩ := by
    unfold GetSpeedFromBytes
    rw [if_neg hne]
  refine ⟨hbranch, ?_⟩
  rw [hbranch]
  simp only [Speed.Unlimited, unlimitedSpeedLimit, decide_eq_false_iff_not]
  intro hcontra
  exact goFloatToUint64_mul8_ne_max (floatRoundInt n) (congrArg Speed.bits hcontra)

/-! ## Claims C4, C5, C6: the quantity layer -/

/-- C4, counterexample: the claimed identity GetSpeedFromBytes(n).ToBytes()
== n fails at n = 2 ^ 53 + 1, which the float64 conversion in
GetSpeedFromBytes rounds down to 2 ^ 53 (ties to even). -/
theorem C4_counterexample :
    (GetSpeedFromBytes 9007199254740993).ToBytes ≠ 9007199254740993 ∧
      (GetSpeedFromBytes 9007199254740993).ToBytes = 9007199254740992 := by
  constructor <;> decide

/-- C4, amended: for every nonnegative wire integer n that is exactly
representable in float64 (the rounding fixes n) and below 2 ^ 61 (so the
bit count n * 8 fits uint64), GetSpeedFromBytes(n).ToBytes() == n; and the
sentinel behaves as claimed: GetSpeedFromBytes(-1) is unlimited and maps
back to -1. -/
theorem C4_speed_wire_roundtrip (n : Int) (h0 : 0 ≤ n) (h61 : n < 2 ^ 61)
    (hfix : floatRoundInt n = n) :
    (GetSpeedFromBytes n).ToBytes = n ∧
      (GetSpeedFromBytes (-1)).Unlimited = true ∧
      (GetSpeedFromBytes (-1)).ToBytes = -1 :=
  ⟨speed_roundtrip h0 h61 hfix, by decide, by decide⟩

/-- Witness for C4_speed_wire_roundtrip at n = 12345. -/
theorem C4_speed_wire_roundtrip_witness :
    0 ≤ (12345 : Int) ∧ (12345 : Int) < 2 ^ 61 ∧
      floatRoundInt 12345 = 12345 ∧
      ((GetSpeedFromBytes 12345).ToBytes = 12345 ∧
        (GetSpeedFromBytes (-1)).Unlimited = true ∧
        (GetSpeedFromBytes (-1)).ToBytes = -1) :=
  by
  refine ⟨?_, ?_, ?_, C4_speed_wire_roundtrip 12345 ?_ ?_ ?_⟩ <;> decide

/-- C5: no nonnegative wire integer in the representable 64-bit range ever
decodes to the unlimited sentinel; in particular 0 stays distinct from
unlimited. -/
theorem C5_nonneg_never_unlimited (n : Int) (h0 : 0 ≤ n) (_h63 : n < 2 ^ 63) :
    (GetSpeedFromBytes n).Unlimited = false :=
  speed_not_unlimited h0

/-- Witness for C5_nonneg_never_unlimited at n = 0. -/
theorem C5_nonneg_never_unlimited_witness :
    0 ≤ (0 : Int) ∧ (0 : Int) < 2 ^ 63 ∧
      (GetSpeedFromBytes 0).Unlimited = false :=
  ⟨by decide, by decide, C5_nonneg_never_unlimited 0 (by decide) (by decide)⟩

/-- C6, counterexample: at the malformed input -2 the decoder does not
signal a decode error; GetSpeedFromBytes has no error result and returns a
Speed value (whose bit count comes from the implementation-dependent
out-of-range conversion, modelled for amd64). -/
theorem C6_counterexample :
    GetSpeedFromBytes (-2) = ⟨18446744073709551600⟩ ∧
      (GetSpeedFromBytes (-2)).Unlimited = false := by
  constructor <;> decide

/-- C6, amended: for every wire integer below -1 GetSpeedFromBytes performs
no validation and returns a Speed through the default (non-sentinel)
conversion branch; no error is produced and the result is never the
unlimited sentinel. -/
theorem C6_below_neg_one_not_rejected (n : Int) (hn : n < -1) :
    GetSpeedFromBytes n = ⟨cunitsImportInBytes (floatRoundInt n)⟩ ∧
      (GetSpeedFromBytes n).Unlimited = false :=
  speed_below_neg_one hn

/-- Witness for C6_below_neg_one_not_rejected at n = -5. -/
theorem C6_below_neg_one_not_rejected_witness :
    (-5 : Int) < -1 ∧
      (GetSpeedFromBytes (-5) = ⟨cunitsImportInBytes (floatRoundInt (-5))⟩ ∧
        (GetSpeedFromBytes (-5)).Unlimited = false) :=
  ⟨by decide, C6_below_neg_one_not_rejected (-5) (by decide)⟩

/-! ## Tag strings: strings.Split and strings.Join

The torrent listing transcoders exchange the tag list with the wire as one
string: UnmarshalJSON computes strings.Split(tags, ", ") and MarshalJSON
computes strings.Join(tags, ", ").  The two Go functions are modelled below
on lists of characters with the exact Go semantics: Split with a non-empty
separator returns the pieces between occurrences of the separator, and in
particular Split("", sep) returns a one-element list containing "". -/

/-- First occurrence of sep in a list: the part before it and the part
after it, or none when sep does not occur.  For a non-empty sep this
mirrors the scan strings.Split performs for each piece. -/
def breakOnSep (sep : List Char) : List Char → Option (List Char × List Char)
  | [] => if ([] : List Char).take sep.length = sep then some ([], []) else none
  | c :: rest =>
    if (c :: rest).take sep.length = sep then some ([], (c :: rest).drop sep.length)
    else (breakOnSep sep rest).map (fun p => (c :: p.1, p.2))

/-- Fuel-driven splitting; the fuel is the length of the list, which bounds
the number of separator occurrences. -/
def splitSepAux (sep : List Char) : Nat → List Char → List (List Char)
  | 0, s => [s]
  | fuel + 1, s =>
    match breakOnSep sep s with
    | none => [s]
    | some (a, b) => a :: splitSepAux sep fuel b

/-- Go strings.Split for a non-empty separator, on lists of characters. -/
def splitSep (sep s : List Char) : List (List Char) := splitSepAux sep s.length s

/-- Go strings.Join on lists of characters. -/
def joinSep (sep : List Char) : List (List Char) → List Char
  | [] => []
  | [x] => x
  | x :: y :: xs => x ++ sep ++ joinSep sep (y :: xs)

/-- Go strings.Split(s, sep) for a non-empty separator. -/
def goSplit (s sep : String) : List String := (splitSep sep.data s.data).map String.mk

/-- Go strings.Join(elems, sep). -/
def goJoin (elems : List String) (sep : String) : String :=
  String.mk (joinSep sep.data (elems.map String.data))

/-- Tag decoding in TorrentInfos.UnmarshalJSON: strings.Split(tags, ", "). -/
def splitTags (s : String) : List String := goSplit s ", "

/-- Tag encoding in TorrentInfos.MarshalJSON: strings.Join(tags, ", "). -/
def joinTags (l : List String) : String := goJoin l ", "

theorem splitSepAux_ne_nil (sep : List Char) :
    ∀ fuel s, splitSepAux sep fuel s ≠ [] := by
  intro fuel s
  cases fuel with
  | zero => simp [splitSepAux]
  | succ f =>
    unfold splitSepAux
    cases breakOnSep sep s with
    | none => simp
    | some p => simp

theorem breakOnSep_append {sep : List Char} (hsep : sep ≠ []) :
    ∀ s a b, breakOnSep sep s = some (a, b) → s = a ++ sep ++ b := by
  intro s
  induction s with
  | nil =>
    intro a b hb
    unfold breakOnSep at hb
    by_cases hp : ([] : List Char).take sep.length = sep
    · simp only [List.take_nil] at hp
      exact absurd hp.symm hsep
    · rw [if_neg hp] at hb
      exact absurd hb (by simp)
  | cons c rest ih =>
    intro a b hb
    unfold breakOnSep at hb
    by_cases hp : (c :: rest).take sep.length = sep
    · rw [if_pos hp] at hb
      simp only [Option.some_inj, Prod.mk.injEq] at hb
      obtain ⟨ha, hbv⟩ := hb
      subst ha
      subst hbv
      simp only [List.nil_append]
      nth_rewrite 1 [← hp]
      exact (List.take_append_drop sep.length (c :: rest)).symm
    · rw [if_neg hp] at hb
      cases hrec : breakOnSep sep rest with
      | none => rw [hrec] at hb; exact absurd hb (by simp)
      | some p =>
        rw [hrec] at hb
        have hb2 : some (c :: p.1, p.2) = some (a, b) := hb
        rw [Option.some_inj] at hb2
        have ha : a = c :: p.1 := (congrArg Prod.fst hb2).symm
        have hbv : b = p.2 := (congrArg Prod.snd hb2).symm
        subst ha
        subst hbv
        have hr := ih p.1 p.2 hrec
        simp only [List.cons_append]
        rw [← hr]

theorem breakOnSep_shorter {sep : List Char} (hsep : sep ≠ []) {s a b : List Char}
    (hb : breakOnSep sep s = some (a, b)) : b.length < s.length := by
  have hs := breakOnSep_append hsep s a b hb
  have hlen : s.length = a.length + sep.length + b.length := by
    rw [hs, List.length_append, List.length_append]
  have hsl : 0 < sep.length := List.length_pos.mpr hsep
  omega

theorem joinSep_cons_of_ne_nil (sep x : List Char) {rest : List (List Char)}
    (h : rest ≠ []) : joinSep sep (x :: rest) = x ++ sep ++ joinSep sep rest := by
  cases rest with
  | nil => exact absurd rfl h
  | cons y ys => rfl

theorem joinSep_splitSepAux {sep : List Char} (hsep : sep ≠ []) :
    ∀ fuel s, s.length ≤ fuel → joinSep sep (splitSepAux sep fuel s) = s := by
  intro fuel
  induction fuel with
  | zero =>
    intro s hs
    cases s with
    | nil => rfl
    | cons c r => simp only [List.length_cons] at hs; omega
  | succ f ih =>
    intro s hs
    unfold splitSepAux
    cases hb : breakOnSep sep s with
    | none => rfl
    | some p =>
      have hshape := breakOnSep_append hsep s p.1 p.2 (by rw [hb])
      have hlen : p.2.length < s.length := breakOnSep_shorter hsep (by rw [hb])
      rw [joinSep_cons_of_ne_nil sep p.1 (splitSepAux_ne_nil sep f p.2)]
      rw [ih p.2 (by omega)]
      exact hshape.symm

/-- Joining the pieces of a split reproduces the original string: the
wire-to-wire direction of the tag round trip, valid for every wire
string. -/
theorem goJoin_goSplit (s sep : String) (hsep : sep.data ≠ []) :
    goJoin (goSplit s sep) sep = s := by
  unfold goJoin goSplit
  rw [List.map_map]
  have hid : (String.data ∘ String.mk) = id := funext fun l => rfl
  rw [hid, List.map_id]
  unfold splitSep
  rw [joinSep_splitSepAux hsep s.data.length s.data le_rfl]

/-- C3: behaviour at the empty tag list.  Joining the empty list gives the
empty wire string, but splitting the empty wire string back yields a
one-element list holding the empty string, not the empty list: the
round-trip identity claimed for every tag list fails at the empty list. -/
theorem C3_empty_tags_eval :
    joinTags [] = "" ∧ splitTags (joinTags []) = [""] ∧
      splitTags (joinTags []) ≠ ([] : List String) := by
  refine ⟨rfl, by decide, by decide⟩

/-! ## Request building (Client.requestBuild, src/unnamed/part_004)

The builder turns a (method, endpoint, action, parameter map) tuple into a
request.  Only the parameter placement and encoding are modelled: the
parameter map becomes an association list with distinct keys (a Go map),
the encoded string goes to the query for GET and to the body for POST, and
two shapes of the map bypass the standard form encoding.  Percent encoding
follows url.QueryEscape exactly: unreserved bytes kept, space as +, every
other UTF-8 byte as an uppercase %XX escape; keys are sorted as
url.Values.Encode does. -/

/-- UTF-8 bytes of one character. -/
def utf8Bytes (c : Char) : List Nat :=
  if c.toNat < 0x80 then [c.toNat]
  else if c.toNat < 0x800 then
    [0xC0 + c.toNat / 0x40, 0x80 + c.toNat % 0x40]
  else if c.toNat < 0x10000 then
    [0xE0 + c.toNat / 0x1000, 0x80 + c.toNat / 0x40 % 0x40, 0x80 + c.toNat % 0x40]
  else
    [0xF0 + c.toNat / 0x40000, 0x80 + c.toNat / 0x1000 % 0x40,
      0x80 + c.toNat / 0x40 % 0x40, 0x80 + c.toNat % 0x40]

/-- Byte kept verbatim by url.QueryEscape: ASCII alphanumerics and
- _ . ~ (the unreserved set of RFC 3986). -/
def isUnreservedQueryByte (b : Nat) : Bool :=
  (0x41 ≤ b && b ≤ 0x5A) || (0x61 ≤ b && b ≤ 0x7A) || (0x30 ≤ b && b ≤ 0x39) ||
    b == 0x2D || b == 0x5F || b == 0x2E || b == 0x7E

/-- Uppercase hexadecimal digit, as url.QueryEscape emits. -/
def hexUpperDigit (n : Nat) : Char :=
  if n < 10 then Char.ofNat (0x30 + n) else Char.ofNat (0x41 + (n - 10))

/-- Escape of one byte in query-component mode: kept, + for space, or an
uppercase percent escape. -/
def queryEscapeByte (b : Nat) : List Char :=
  if isUnreservedQueryByte b then [Char.ofNat b]
  else if b == 0x20 then [Char.ofNat 0x2B]
  else [Char.ofNat 0x25, hexUpperDigit (b / 16), hexUpperDigit (b % 16)]

/-- Go url.QueryEscape. -/
def queryEscape (s : String) : String :=
  String.mk ((s.data.flatMap utf8Bytes).flatMap queryEscapeByte)

/-- Insertion step of sorting the parameter keys (sort.Strings inside
url.Values.Encode). -/
def sortInsert (p : String × String) : List (String × String) → List (String × String)
  | [] => [p]
  | q :: rest => if q.1 < p.1 then q :: sortInsert p rest else p :: q :: rest

/-- Key-sorting of the parameter list, as url.Values.Encode performs. -/
def sortByKey : List (String × String) → List (String × String)
  | [] => []
  | p :: rest => sortInsert p (sortByKey rest)

/-- Go url.Values.Encode for single-valued parameters: keys sorted, key and
value percent-encoded, pairs joined key=value with ampersands. -/
def urlValuesEncode (params : List (String × String)) : String :=
  goJoin ((sortByKey params).map
    (fun p => queryEscape p.1 ++ "=" ++ queryEscape p.2)) "&"

/-- Go map indexing on the association list: the value under the key, or
the zero value "" when absent. -/
def mapGet : List (String × String) → String → String
  | [], _ => ""
  | p :: rest, k => if p.1 = k then p.2 else mapGet rest k

/-- Parameter-map encoding of Client.requestBuild: a single entry under the
empty key is passed verbatim, a single entry under "json" is prefixed with
json= and not re-encoded, and every other map is form encoded. -/
def encodeShape (parameters : List (String × String)) : String :=
  if parameters.length = 1 ∧ mapGet parameters "" ≠ "" then mapGet parameters ""
  else if parameters.length = 1 ∧ mapGet parameters "json" ≠ "" then
    "json=" ++ mapGet parameters "json"
  else urlValuesEncode parameters

/-- ASCII uppercasing of one character (strings.ToUpper restricted to the
ASCII method names passed by the endpoint methods). -/
def asciiToUpper (c : Char) : Char :=
  if 0x61 ≤ c.toNat ∧ c.toNat ≤ 0x7A then Char.ofNat (c.toNat - 0x20) else c

/-- Go strings.ToUpper on ASCII strings. -/
def goToUpper (s : String) : String := String.mk (s.data.map asciiToUpper)

/-- Placement outcome of Client.requestBuild: the raw query string and the
optional body. -/
structure BuiltRequest where
  rawQuery : String
  body : Option String
deriving DecidableEq, Repr

/-- Client.requestBuild (src/unnamed/part_004), parameter handling: with no
parameter map nothing is placed; otherwise the encoded parameters go to the
query for GET and to the body for POST. -/
def requestBuild (method : String) (parameters : Option (List (String × String))) :
    BuiltRequest :=
  match parameters with
  | none => ⟨"", none⟩
  | some ps =>
    if goToUpper method = "GET" then ⟨encodeShape ps, none⟩
    else if goToUpper method = "POST" then ⟨"", some (encodeShape ps)⟩
    else ⟨"", none⟩

theorem encodeShape_raw {v : String} (hv : v ≠ "") :
    encodeShape [("", v)] = v := by
  unfold encodeShape
  rw [if_pos ⟨rfl, by simpa [mapGet] using hv⟩]
  simp [mapGet]

theorem encodeShape_json {v : String} (hv : v ≠ "") :
    encodeShape [("json", v)] = "json=" ++ v := by
  unfold encodeShape
  have hempty : mapGet [("json", v)] "" = "" := by simp [mapGet]
  rw [if_neg (by simp [hempty])]
  rw [if_pos ⟨rfl, by simpa [mapGet] using hv⟩]
  simp [mapGet]

theorem encodeShape_default {ps : List (String × String)}
    (h1 : ¬(ps.length = 1 ∧ mapGet ps "" ≠ ""))
    (h2 : ¬(ps.length = 1 ∧ mapGet ps "json" ≠ "")) :
    encodeShape ps = urlValuesEncode ps := by
  unfold encodeShape
  rw [if_neg h1, if_neg h2]

theorem requestBuild_post_body (ps : List (String × String)) :
    (requestBuild "POST" (some ps)).body = some (encodeShape ps) := by
  simp only [requestBuild]
  rw [if_neg (by decide), if_pos (by decide)]

/-- C7: body placement and the two encoding exceptions of requestBuild for
POST requests.  A single parameter under the empty key is the body
verbatim; a single parameter under "json" yields the body json= followed by
the unencoded value; every other non-empty map is form encoded
(percent-encoded key=value pairs with sorted keys). -/
theorem C7_post_encoding_shapes (v : String) (hv : v ≠ "")
    (ps : List (String × String)) (_hne : ps ≠ [])
    (h1 : ¬(ps.length = 1 ∧ mapGet ps "" ≠ ""))
    (h2 : ¬(ps.length = 1 ∧ mapGet ps "json" ≠ "")) :
    (requestBuild "POST" (some [("", v)])).body = some v ∧
      (requestBuild "POST" (some [("json", v)])).body = some ("json=" ++ v) ∧
      (requestBuild "POST" (some ps)).body = some (urlValuesEncode ps) := by
  refine ⟨?_, ?_, ?_⟩
  · rw [requestBuild_post_body, encodeShape_raw hv]
  · rw [requestBuild_post_body, encodeShape_json hv]
  · rw [requestBuild_post_body, encodeShape_default h1 h2]

/-- Witness for C7_post_encoding_shapes at v = "x y" and a two-entry map. -/
theorem C7_post_encoding_shapes_witness :
    ("x y" : String) ≠ "" ∧ ([("b", "2"), ("a", "1")] : List (String × String)) ≠ [] ∧
      ¬(([("b", "2"), ("a", "1")] : List (String × String)).length = 1 ∧
        mapGet [("b", "2"), ("a", "1")] "" ≠ "") ∧
      ¬(([("b", "2"), ("a", "1")] : List (String × String)).length = 1 ∧
        mapGet [("b", "2"), ("a", "1")] "json" ≠ "") ∧
      ((requestBuild "POST" (some [("", "x y")])).body = some "x y" ∧
        (requestBuild "POST" (some [("json", "x y")])).body = some ("json=" ++ "x y") ∧
        (requestBuild "POST" (some [("b", "2"), ("a", "1")])).body =
          some (urlValuesEncode [("b", "2"), ("a", "1")])) :=
  by
  refine ⟨?_, ?_, ?_, ?_,
    C7_post_encoding_shapes "x y" ?_ [("b", "2"), ("a", "1")] ?_ ?_ ?_⟩ <;> decide

/-! ## Session retry protocol (Client.requestExecute, src/unnamed/part_004)

Client.requestExecute sends the request, switches on the response status
(200 proceeds, 403 with auto-authentication triggers Login and one resend
with auto-authentication disabled, anything else is an HTTP-status error),
and recurses at most once.  The transport is modelled as the list of
statuses successive sends would receive (an empty list models a transport
failure from client.Do); Login success is a boolean.

The resend first resets the request body.  requestBuild attaches a body
only to a POST carrying parameters, so every GET request (and every
parameterless POST) reaches requestExecute with a nil body: for those
requests net/http leaves request.GetBody nil, and the reset step
request.GetBody() in part_004 calls a nil function — a runtime panic —
instead of replaying (network.go nil-dereferences req.payload.Seek the
same way).  The boolean hasBody records whether the built request carries
a body; when it does, GetBody is the never-failing snapshot function that
net/http installs for a strings.Reader body, so the reset succeeds.  The
result carries the outcome together with the number of sends and the
number of Login calls performed. -/

/-- Outcome of one requestExecute call; panicked is the runtime panic of
calling the nil request.GetBody on the 403 auto-authentication path of a
bodyless request. -/
inductive ExecOutcome where
  | ok : ExecOutcome
  | httpError : Nat → ExecOutcome
  | loginFailed : ExecOutcome
  | panicked : ExecOutcome
  | transportError : ExecOutcome
deriving DecidableEq, Repr

/-- Client.requestExecute: outcome, number of sends, number of Login
calls.  Mirrors the Go switch: 200 proceeds, 403 without auto-auth is
HTTPError(403), 403 with auto-auth runs Login and then resets the body —
a nil-GetBody panic when the request has no body, otherwise a successful
reset followed by one re-execution with auto-auth disabled — and any
other status is HTTPError(status). -/
def requestExecute (statuses : List Nat) (loginOK hasBody autoAuth : Bool) :
    ExecOutcome × Nat × Nat :=
  match statuses with
  | [] => (.transportError, 0, 0)
  | st :: rest =>
    if st = 200 then (.ok, 1, 0)
    else if st = 403 then
      if !autoAuth then (.httpError 403, 1, 0)
      else if !loginOK then (.loginFailed, 1, 1)
      else if !hasBody then (.panicked, 1, 1)
      else
        ((requestExecute rest loginOK hasBody false).1,
          (requestExecute rest loginOK hasBody false).2.1 + 1,
          (requestExecute rest loginOK hasBody false).2.2 + 1)
    else (.httpError st, 1, 0)

/-- With auto-authentication disabled a call performs at most one send and
never calls Login: the replay cannot loop. -/
theorem requestExecute_noauth (statuses : List Nat) (loginOK hasBody : Bool) :
    (requestExecute statuses loginOK hasBody false).2.1 ≤ 1 ∧
      (requestExecute statuses loginOK hasBody false).2.2 = 0 := by
  cases statuses with
  | nil => simp [requestExecute]
  | cons st rest =>
    unfold requestExecute
    by_cases h200 : st = 200
    · simp [h200]
    · by_cases h403 : st = 403
      · simp [h200, h403]
      · simp [h200, h403]

/-- C1, counterexample: for a bodyless request (every GET endpoint passes
auto-authentication enabled) a first 403 runs Login and then panics on the
nil GetBody: one send, one Login, no replay and no HTTP-status error, so
the claimed Login-then-replay behaviour and the HTTPError(403) result are
both refuted on the trace 403 then 403. -/
theorem C1_counterexample :
    requestExecute [403, 403] true false true = (.panicked, 1, 1) ∧
      requestExecute [403, 403] true false true ≠ (.httpError 403, 2, 1) := by
  constructor <;> decide

/-- C1, amended: with auto-authentication enabled every execution performs
at most two sends and at most one Login.  When the original request
carries a body (a POST built with parameters), a first 403 with a
successful Login is followed by exactly one replay executed with
auto-authentication disabled (one extra send, exactly one Login), and a
replay 403 returns HTTPError(403) after exactly two sends and one Login.
When the request has no body (every GET), the 403 auto-authentication
path panics on the nil GetBody after its single send and single Login
instead of replaying. -/
theorem C1_auto_relogin_replay (statuses : List Nat) (loginOK hasBody : Bool) :
    (requestExecute statuses loginOK hasBody true).2.1 ≤ 2 ∧
      (requestExecute statuses loginOK hasBody true).2.2 ≤ 1 ∧
      (∀ rest, statuses = 403 :: rest → loginOK = true → hasBody = true →
        requestExecute statuses loginOK hasBody true =
          ((requestExecute rest loginOK hasBody false).1,
            (requestExecute rest loginOK hasBody false).2.1 + 1,
            (requestExecute rest loginOK hasBody false).2.2 + 1) ∧
          (requestExecute statuses loginOK hasBody true).2.2 = 1) ∧
      (∀ rest, statuses = 403 :: 403 :: rest → loginOK = true → hasBody = true →
        requestExecute statuses loginOK hasBody true = (.httpError 403, 2, 1)) ∧
      (∀ rest, statuses = 403 :: rest → loginOK = true → hasBody = false →
        requestExecute statuses loginOK hasBody true = (.panicked, 1, 1)) := by
  refine ⟨?_, ?_, ?_, ?_, ?_⟩
  · cases statuses with
    | nil => simp [requestExecute]
    | cons st rest =>
      unfold requestExecute
      by_cases h200 : st = 200
      · simp [h200]
      · by_cases h403 : st = 403
        · cases loginOK with
          | false => simp [h200, h403]
          | true =>
            cases hasBody with
            | false => simp [h200, h403]
            | true =>
              have hno := requestExecute_noauth rest true true
              simp [h403, h200]; omega
        · simp [h200, h403]
  · cases statuses with
    | nil => simp [requestExecute]
    | cons st rest =>
      unfold requestExecute
      by_cases h200 : st = 200
      · simp [h200]
      · by_cases h403 : st = 403
        · cases loginOK with
          | false => simp [h200, h403]
          | true =>
            cases hasBody with
            | false => simp [h200, h403]
            | true =>
              have hno := requestExecute_noauth rest true true
              simp [h403, h200]; omega
        · simp [h200, h403]
  · intro rest hs hl hb
    subst hs; subst hl; subst hb
    constructor
    · simp [requestExecute]
    · have hno := requestExecute_noauth rest true true
      simp [requestExecute]; omega
  · intro rest hs hl hb
    subst hs; subst hl; subst hb
    simp [requestExecute]
  · intro rest hs hl hb
    subst hs; subst hl; subst hb
    simp [requestExecute]

/-- Witness for C1_auto_relogin_replay: a bodied request on the trace 403
then 403. -/
theorem C1_auto_relogin_replay_witness :
    (requestExecute [403, 403] true true true).2.1 ≤ 2 ∧
      (requestExecute [403, 403] true true true).2.2 ≤ 1 ∧
      requestExecute [403, 403] true true true = (.httpError 403, 2, 1) := by
  obtain ⟨h1, h2, _h3, h4, _h5⟩ := C1_auto_relogin_replay [403, 403] true true
  exact ⟨h1, h2, h4 [] rfl rfl rfl⟩

/-! ## A canonical fragment of net/url

Both tracker records and torrent listing entries run url.Parse on a wire
string during decoding (an error path of UnmarshalJSON) and URL.String
during encoding.  The library is external; the composite effect
String(Parse(s)) is modelled by goUrlParseFormat on a canonical fragment
where it is provably the identity:

  - an opaque URI scheme:rest with a canonical scheme (first character a
    lowercase letter, then lowercase letters, digits, +, -, .), rest not
    beginning with a slash — Parse stores the part before the first
    question mark verbatim as Opaque and the part after it verbatim as
    RawQuery, and String emits both verbatim (the shape of magnet links);
  - an authority URI scheme://host[:port]/path with the same scheme rule,
    a registered-name host of letters, digits, dots and hyphens, an
    optional decimal port and a path of unreserved characters and slashes
    (optionally followed by a verbatim query) — on these neither host nor
    path parsing unescapes or re-escapes anything.

Strings with an ASCII control character have the model report failure as
the library does; no-scheme strings such as "://" (a missing-scheme parse
error) also report failure.  Outside the fragment the library may instead
succeed while normalizing (for example "a b" formats as "a%20b" and an
uppercase scheme is lowercased), so the model is conservative there and
the round-trip theorems restrict the URL fields to the fragment. -/

/-- Lowercase ASCII letter. -/
def isLowerAlpha (c : Char) : Bool := 0x61 ≤ c.toNat && c.toNat ≤ 0x7A

/-- ASCII letter. -/
def isAlphaChar (c : Char) : Bool :=
  isLowerAlpha c || (0x41 ≤ c.toNat && c.toNat ≤ 0x5A)

/-- ASCII digit. -/
def isDigitChar (c : Char) : Bool := 0x30 ≤ c.toNat && c.toNat ≤ 0x39

/-- Character allowed after the first one in a canonical scheme. -/
def isSchemeRestChar (c : Char) : Bool :=
  isLowerAlpha c || isDigitChar c || c == '+' || c == '-' || c == '.'

/-- Registered-name host character kept verbatim by parse and format. -/
def isHostChar (c : Char) : Bool :=
  isAlphaChar c || isDigitChar c || c == '.' || c == '-'

/-- Path character that neither unescaping nor re-escaping touches. -/
def isPathSafeChar (c : Char) : Bool :=
  isAlphaChar c || isDigitChar c || c == '-' || c == '.' || c == '_' ||
    c == '~' || c == '/'

/-- ASCII control character (rejected by url.Parse). -/
def isCtlChar (c : Char) : Bool := c.toNat < 0x20 || c.toNat == 0x7F

/-- Canonical authority: a non-empty registered-name host with an optional
decimal port. -/
def validAuthority (auth : List Char) : Bool :=
  match breakOnSep [':'] auth with
  | none => !auth.isEmpty && auth.all isHostChar
  | some (h, p) => !h.isEmpty && h.all isHostChar && p.all isDigitChar

/-- Classification of the part between the scheme colon and the query: an
opaque tail (kept verbatim), or a canonical authority and path. -/
def urlTailCheck (pre : List Char) (s : String) : Option String :=
  if pre.take 2 = ['/', '/'] then
    match breakOnSep ['/'] (pre.drop 2) with
    | none => if validAuthority (pre.drop 2) then some s else none
    | some (auth, path) =>
      if validAuthority auth && path.all isPathSafeChar then some s else none
  else if pre.take 1 = ['/'] then none
  else some s

/-- String(Parse(s)) of net/url on the canonical fragment: the identity
there, failure outside it (conservatively, see the section comment). -/
def goUrlParseFormat (s : String) : Option String :=
  if s.data.any isCtlChar || s.data.contains '#' then none
  else
    match breakOnSep [':'] s.data with
    | none => none
    | some (scheme, rest) =>
      if !(match scheme with
            | [] => false
            | c :: cs => isLowerAlpha c && cs.all isSchemeRestChar) then none
      else
        match breakOnSep ['?'] rest with
        | none => urlTailCheck rest s
        | some (pre, _) => urlTailCheck pre s

/-! ## Torrent trackers (src/unnamed/part_000)

TorrentTrackerStatus is a Go uint8.  TorrentTracker.UnmarshalJSON decodes
the wire record through encoding/json (which rejects numbers outside the
uint8 range for the status field) and then runs url.Parse on the tracker
URL, returning its error when the parse fails; the parsed URL is modelled
by its formatted string through the canonical net/url fragment above.
TorrentTrackerStatus.String maps the five known codes to fixed names and
every other uint8 value to its decimal form via strconv.Itoa. -/

/-- Decoding of an integer JSON number into a Go uint8 field, as
encoding/json performs for the status of the tracker mask: out-of-range
values are an unmarshal error. -/
def unmarshalUint8 (n : Int) : Except String Nat :=
  if 0 ≤ n ∧ n < 256 then .ok n.toNat
  else .error "json: cannot unmarshal number into Go value of type uint8"

/-- Wire form of one tracker entry. -/
structure WireTorrentTracker where
  url : String
  status : Int
  tier : Int
  numPeers : Int
  numSeeds : Int
  numLeeches : Int
  numDownloaded : Int
  msg : String
deriving DecidableEq, Repr

/-- Decoded tracker entry; the URL field holds the parsed URL, modelled by
its formatted (String) form. -/
structure TorrentTracker where
  url : String
  status : Nat
  tier : Int
  numPeers : Int
  numSeeds : Int
  numLeeches : Int
  numDownloaded : Int
  msg : String
deriving DecidableEq, Repr

/-- TorrentTracker.UnmarshalJSON: the json decode of the mask (where the
uint8 status can fail) followed by the URL parse (which fails on
malformed tracker URLs). -/
def TorrentTracker.unmarshal (w : WireTorrentTracker) : Except String TorrentTracker :=
  match unmarshalUint8 w.status with
  | .error e => .error e
  | .ok st =>
    match goUrlParseFormat w.url with
    | none => .error "failed to parse tracker URL"
    | some u =>
      .ok ⟨u, st, w.tier, w.numPeers, w.numSeeds, w.numLeeches, w.numDownloaded, w.msg⟩

/-- TorrentTrackerStatus.String: fixed names for codes 0 to 4,
strconv.Itoa for every other uint8 value. -/
def torrentTrackerStatusString (tts : Nat) : String :=
  if tts = 0 then "disabled"
  else if tts = 1 then "not contacted"
  else if tts = 2 then "working"
  else if tts = 3 then "updating"
  else if tts = 4 then "not working"
  else toString tts

/-- C9, counterexample: a tracker record whose status code 256 lies outside
the uint8 range fails to decode, against the claim that every code outside
the enumerated set decodes without error. -/
theorem C9_counterexample :
    TorrentTracker.unmarshal ⟨"http://tracker.example/announce", 256, 0, 0, 0, 0, 0, ""⟩ =
      .error "json: cannot unmarshal number into Go value of type uint8" := rfl

/-- C9, amended: every unrecognized status code within the uint8 range
(5 to 255) of a record whose tracker URL parses canonically decodes
without error and renders as its decimal literal, while codes 0 to 4
render as the five fixed names; codes outside the uint8 range are a
decode error, as are malformed tracker URLs. -/
theorem C9_unknown_status_decimal (w : WireTorrentTracker) (h5 : 5 ≤ w.status)
    (h256 : w.status < 256)
    (hurl : goUrlParseFormat w.url = some w.url) :
    TorrentTracker.unmarshal w =
        .ok ⟨w.url, w.status.toNat, w.tier, w.numPeers, w.numSeeds, w.numLeeches,
          w.numDownloaded, w.msg⟩ ∧
      torrentTrackerStatusString w.status.toNat = toString w.status.toNat ∧
      torrentTrackerStatusString 0 = "disabled" ∧
      torrentTrackerStatusString 1 = "not contacted" ∧
      torrentTrackerStatusString 2 = "working" ∧
      torrentTrackerStatusString 3 = "updating" ∧
      torrentTrackerStatusString 4 = "not working" := by
  refine ⟨?_, ?_, rfl, rfl, rfl, rfl, rfl⟩
  · have hst : unmarshalUint8 w.status = .ok w.status.toNat := by
      unfold unmarshalUint8
      rw [if_pos ⟨by omega, h256⟩]
    unfold TorrentTracker.unmarshal
    rw [hst, hurl]
  · unfold torrentTrackerStatusString
    iterate 5 rw [if_neg (by omega)]

/-- Witness for C9_unknown_status_decimal at status code 99 and a
canonical tracker URL. -/
theorem C9_unknown_status_decimal_witness :
    5 ≤ (99 : Int) ∧ (99 : Int) < 256 ∧
      goUrlParseFormat "http://t.example/a" = some "http://t.example/a" ∧
      (TorrentTracker.unmarshal ⟨"http://t.example/a", 99, 1, 2, 3, 4, 5, "m"⟩ =
          .ok ⟨"http://t.example/a", 99, 1, 2, 3, 4, 5, "m"⟩ ∧
        torrentTrackerStatusString 99 = toString (99 : Nat) ∧
        torrentTrackerStatusString 0 = "disabled" ∧
        torrentTrackerStatusString 1 = "not contacted" ∧
        torrentTrackerStatusString 2 = "working" ∧
        torrentTrackerStatusString 3 = "updating" ∧
        torrentTrackerStatusString 4 = "not working") := by
  refine ⟨?_, ?_, ?_,
    C9_unknown_status_decimal ⟨"http://t.example/a", 99, 1, 2, 3, 4, 5, "m"⟩ ?_ ?_ ?_⟩ <;>
    decide

/-! ## Listing filters (ListFilters.getLowLevelRepr, src/unnamed/part_000)

The filter struct holds seven optional scalar filters and a slice of
hashes.  getLowLevelRepr inserts one map entry per non-nil field; the Go
map is modelled as the association list of its entries in source order. -/

/-- Listing filters; hashes distinguishes the nil slice (none) from a
non-nil slice (some, possibly empty). -/
structure ListFilters where
  state : Option String
  category : Option String
  tag : Option String
  sort : Option String
  reverseSort : Option Bool
  limit : Option Int
  offset : Option Int
  hashes : Option (List String)
deriving DecidableEq, Repr

/-- One conditional map insertion: a single entry when the field is set,
nothing when it is nil. -/
def optEntry (key : String) : Option String → List (String × String)
  | none => []
  | some v => [(key, v)]

/-- Go strconv.FormatBool. -/
def formatBool (b : Bool) : String := if b then "true" else "false"

/-- Go strconv.Itoa on a Go int. -/
def itoa (i : Int) : String := toString i

/-- ListFilters.getLowLevelRepr: one entry per non-nil field; the hashes
slice is joined with the pipe separator (strings.Join(lf.Hashes, "|")),
and a nil slice contributes no entry at all. -/
def ListFilters.getLowLevelRepr (lf : ListFilters) : List (String × String) :=
  optEntry "filter" lf.state ++
    optEntry "category" lf.category ++
    optEntry "tag" lf.tag ++
    optEntry "sort" lf.sort ++
    optEntry "reverse" (lf.reverseSort.map formatBool) ++
    optEntry "limit" (lf.limit.map itoa) ++
    optEntry "offset" (lf.offset.map itoa) ++
    (match lf.hashes with
      | none => []
      | some hs => [("hashes", goJoin hs "|")])

theorem mem_keys_optEntry (k key : String) (v : Option String) :
    key ∈ (optEntry k v).map Prod.fst ↔ v ≠ none ∧ key = k := by
  cases v with
  | none => simp [optEntry]
  | some x => simp [optEntry]

theorem mem_keys_append (l1 l2 : List (String × String)) (key : String) :
    key ∈ (l1 ++ l2).map Prod.fst ↔ key ∈ l1.map Prod.fst ∨ key ∈ l2.map Prod.fst := by
  simp [List.mem_append]

/-- C10: the "hashes" key appears in the low-level representation exactly
when the Hashes slice is non-nil, and a non-nil empty slice produces the
entry ("hashes", "") — the empty pipe-joined filter — so nil and empty are
distinguishable on the wire. -/
theorem C10_hashes_key (lf : ListFilters) :
    ("hashes" ∈ lf.getLowLevelRepr.map Prod.fst ↔ lf.hashes ≠ none) ∧
      (lf.hashes = some [] → ("hashes", "") ∈ lf.getLowLevelRepr) := by
  constructor
  · cases hh : lf.hashes with
    | none =>
      simp only [ListFilters.getLowLevelRepr, hh, mem_keys_append, mem_keys_optEntry]
      simp
    | some hs =>
      simp only [ListFilters.getLowLevelRepr, hh, mem_keys_append, mem_keys_optEntry]
      simp
  · intro hh
    simp only [ListFilters.getLowLevelRepr, hh]
    exact List.mem_append_right _ (by decide)

/-- Witness for C10_hashes_key: an all-nil filter with a non-nil empty
hashes slice carries the entry ("hashes", ""), and the all-nil filter
carries no "hashes" key. -/
theorem C10_hashes_key_witness :
    (ListFilters.mk none none none none none none none (some [])).hashes = some [] ∧
      ("hashes", "") ∈
        (ListFilters.mk none none none none none none none (some [])).getLowLevelRepr ∧
      ¬("hashes" ∈
        (ListFilters.mk none none none none none none none none).getLowLevelRepr.map
          Prod.fst) :=
  ⟨rfl, (C10_hashes_key _).2 rfl, fun h => (C10_hashes_key _).1.mp h rfl⟩

/-! ## Application preferences (src/api_application.go)

ApplicationPreferences is a configuration entity of 144 independently
optional fields, every one a pointer (or the scan_dirs map) tagged
json:"...,omitempty".  Setting preferences marshals the struct with
encoding/json, so a field key appears on the wire exactly when the field
is emitted: a non-nil pointer, or a non-nil non-empty map for scan_dirs
(omitempty also drops empty maps).  The entries list below transcribes,
in declaration order, each json key together with its emission flag; the
serialized key set is the keys whose flag holds. -/

/-- ApplicationPreferences (api_application.go): every field optional,
absent modelled as none.  The scan_dirs map carries opaque values
(their JSON text). -/
structure ApplicationPreferences where
  locale : Option String := none
  createSubfolderEnabled : Option Bool := none
  startPausedEnabled : Option Bool := none
  autoDeleteMode : Option Int := none
  preallocateAll : Option Bool := none
  incompleteFilesExt : Option Bool := none
  autoTMMEnabled : Option Bool := none
  torrentChangedTmmEnabled : Option Bool := none
  savePathChangedTmmEnabled : Option Bool := none
  categoryChangedTmmEnabled : Option Bool := none
  savePath : Option String := none
  tempPathEnabled : Option Bool := none
  tempPath : Option String := none
  scanDirs : Option (List (String × String)) := none
  exportDir : Option String := none
  exportDirFin : Option String := none
  mailNotificationEnabled : Option Bool := none
  mailNotificationSender : Option String := none
  mailNotificationEmail : Option String := none
  mailNotificationSMTP : Option String := none
  mailNotificationSslEnabled : Option Bool := none
  mailNotificationAuthEnabled : Option Bool := none
  mailNotificationUsername : Option String := none
  mailNotificationPassword : Option String := none
  autorunEnabled : Option Bool := none
  autorunProgram : Option String := none
  queueingEnabled : Option Bool := none
  maxActiveDownloads : Option Int := none
  maxActiveTorrents : Option Int := none
  maxActiveUploads : Option Int := none
  dontCountSlowTorrents : Option Bool := none
  slowTorrentDlRateThreshold : Option Int := none
  slowTorrentUlRateThreshold : Option Int := none
  slowTorrentInactiveTimer : Option Int := none
  maxRatioEnabled : Option Bool := none
  maxRatio : Option Int := none
  maxRatioAct : Option Int := none
  listenPort : Option Int := none
  uPnP : Option Bool := none
  randomPort : Option Bool := none
  dlLimit : Option Int := none
  upLimit : Option Int := none
  maxConnec : Option Int := none
  maxConnecPerTorrent : Option Int := none
  maxUploads : Option Int := none
  maxUploadsPerTorrent : Option Int := none
  stopTrackerTimeout : Option Int := none
  enablePieceExtentAffinity : Option Bool := none
  bittorrentProtocol : Option Int := none
  limitUtpRate : Option Bool := none
  limitTCPOverhead : Option Bool := none
  limitLanPeers : Option Bool := none
  altDlLimit : Option Int := none
  altUpLimit : Option Int := none
  schedulerEnabled : Option Bool := none
  scheduleFromHour : Option Int := none
  scheduleFromMin : Option Int := none
  scheduleToHour : Option Int := none
  scheduleToMin : Option Int := none
  schedulerDays : Option Int := none
  dHT : Option Bool := none
  peX : Option Bool := none
  lSD : Option Bool := none
  encryption : Option Int := none
  anonymousMode : Option Bool := none
  proxyType : Option Int := none
  proxyIP : Option String := none
  proxyPort : Option Int := none
  proxyPeerConnections : Option Bool := none
  proxyAuthEnabled : Option Bool := none
  proxyUsername : Option String := none
  proxyPassword : Option String := none
  proxyTorrentsOnly : Option Bool := none
  iPFilterEnabled : Option Bool := none
  iPFilterPath : Option String := none
  iPFilterTrackers : Option Bool := none
  webUIDomainList : Option String := none
  webUIAddress : Option String := none
  webUIPort : Option Int := none
  webUIUpnp : Option Bool := none
  webUIUsername : Option String := none
  webUIPassword : Option String := none
  webUICsrfProtectionEnabled : Option Bool := none
  webUIClickjackingProtectionEnabled : Option Bool := none
  webUISecureCookieEnabled : Option Bool := none
  webUIMaxAuthFailCount : Option Int := none
  webUIBanDuration : Option Int := none
  webUISessionTimeout : Option Int := none
  webUIHostHeaderValidationEnabled : Option Bool := none
  bypassLocalAuth : Option Bool := none
  bypassAuthSubnetWhitelistEnabled : Option Bool := none
  bypassAuthSubnetWhitelist : Option String := none
  alternativeWebuiEnabled : Option Bool := none
  alternativeWebuiPath : Option String := none
  useHTTPS : Option Bool := none
  webUIHTTPSKeyPath : Option String := none
  webUIHTTPSCertPath : Option String := none
  dynDNSEnabled : Option Bool := none
  dynDNSService : Option Int := none
  dynDNSUsername : Option String := none
  dynDNSPassword : Option String := none
  dynDNSDomain : Option String := none
  rSSRefreshInterval : Option Int := none
  rSSMaxArticlesPerFeed : Option Int := none
  rSSProcessingEnabled : Option Bool := none
  rSSAutoDownloadingEnabled : Option Bool := none
  rSSDownloadRepackProperEpisodes : Option Bool := none
  rSSSmartEpisodeFilters : Option String := none
  addTrackersEnabled : Option Bool := none
  addTrackers : Option String := none
  webUIUseCustomHTTPHeadersEnabled : Option Bool := none
  webUICustomHTTPHeaders : Option String := none
  maxSeedingTimeEnabled : Option Bool := none
  maxSeedingTime : Option Int := none
  announceIP : Option String := none
  announceToAllTiers : Option Bool := none
  announceToAllTrackers : Option Bool := none
  asyncIoThreads : Option Int := none
  bannedIPs : Option String := none
  checkingMemoryUse : Option Int := none
  currentInterfaceAddress : Option String := none
  currentNetworkInterface : Option String := none
  diskCache : Option Int := none
  diskCacheTTL : Option Int := none
  embeddedTrackerPort : Option Int := none
  enableCoalesceReadWrite : Option Bool := none
  enableEmbeddedTracker : Option Bool := none
  enableMultiConnectionsFromSameIP : Option Bool := none
  enableOSCache : Option Bool := none
  enableUploadSuggestions : Option Bool := none
  filePoolSize : Option Int := none
  outgoingPortsMax : Option Int := none
  outgoingPortsMin : Option Int := none
  recheckCompletedTorrents : Option Bool := none
  resolvePeerCountries : Option Bool := none
  saveResumeDataInterval : Option Int := none
  sendBufferLowWatermark : Option Int := none
  sendBufferWatermark : Option Int := none
  sendBufferWatermarkFactor : Option Int := none
  socketBacklogSize : Option Int := none
  uploadChokingAlgorithm : Option Int := none
  uploadSlotsBehavior : Option Int := none
  uPnPLeaseDuration : Option Int := none
  uTPTCPMixedMode : Option Int := none
deriving Repr

/-- Declaration-order list of (json key, emitted) for one preferences
value, following the omitempty rule of encoding/json: pointers are emitted
when non-nil, the scan_dirs map when non-nil and non-empty. -/
def applicationPreferencesEntries (p : ApplicationPreferences) : List (String × Bool) :=
  [
    ("locale", p.locale.isSome),
    ("create_subfolder_enabled", p.createSubfolderEnabled.isSome),
    ("start_paused_enabled", p.startPausedEnabled.isSome),
    ("auto_delete_mode", p.autoDeleteMode.isSome),
    ("preallocate_all", p.preallocateAll.isSome),
    ("incomplete_files_ext", p.incompleteFilesExt.isSome),
    ("auto_tmm_enabled", p.autoTMMEnabled.isSome),
    ("torrent_changed_tmm_enabled", p.torrentChangedTmmEnabled.isSome),
    ("save_path_changed_tmm_enabled", p.savePathChangedTmmEnabled.isSome),
    ("category_changed_tmm_enabled", p.categoryChangedTmmEnabled.isSome),
    ("save_path", p.savePath.isSome),
    ("temp_path_enabled", p.tempPathEnabled.isSome),
    ("temp_path", p.tempPath.isSome),
    ("scan_dirs", match p.scanDirs with | none => false | some m => !m.isEmpty),
    ("export_dir", p.exportDir.isSome),
    ("export_dir_fin", p.exportDirFin.isSome),
    ("mail_notification_enabled", p.mailNotificationEnabled.isSome),
    ("mail_notification_sender", p.mailNotificationSender.isSome),
    ("mail_notification_email", p.mailNotificationEmail.isSome),
    ("mail_notification_smtp", p.mailNotificationSMTP.isSome),
    ("mail_notification_ssl_enabled", p.mailNotificationSslEnabled.isSome),
    ("mail_notification_auth_enabled", p.mailNotificationAuthEnabled.isSome),
    ("mail_notification_username", p.mailNotificationUsername.isSome),
    ("mail_notification_password", p.mailNotificationPassword.isSome),
    ("autorun_enabled", p.autorunEnabled.isSome),
    ("autorun_program", p.autorunProgram.isSome),
    ("queueing_enabled", p.queueingEnabled.isSome),
    ("max_active_downloads", p.maxActiveDownloads.isSome),
    ("max_active_torrents", p.maxActiveTorrents.isSome),
    ("max_active_uploads", p.maxActiveUploads.isSome),
    ("dont_count_slow_torrents", p.dontCountSlowTorrents.isSome),
    ("slow_torrent_dl_rate_threshold", p.slowTorrentDlRateThreshold.isSome),
    ("slow_torrent_ul_rate_threshold", p.slowTorrentUlRateThreshold.isSome),
    ("slow_torrent_inactive_timer", p.slowTorrentInactiveTimer.isSome),
    ("max_ratio_enabled", p.maxRatioEnabled.isSome),
    ("max_ratio", p.maxRatio.isSome),
    ("max_ratio_act", p.maxRatioAct.isSome),
    ("listen_port", p.listenPort.isSome),
    ("upnp", p.uPnP.isSome),
    ("random_port", p.randomPort.isSome),
    ("dl_limit", p.dlLimit.isSome),
    ("up_limit", p.upLimit.isSome),
    ("max_connec", p.maxConnec.isSome),
    ("max_connec_per_torrent", p.maxConnecPerTorrent.isSome),
    ("max_uploads", p.maxUploads.isSome),
    ("max_uploads_per_torrent", p.maxUploadsPerTorrent.isSome),
    ("stop_tracker_timeout", p.stopTrackerTimeout.isSome),
    ("enable_piece_extent_affinity", p.enablePieceExtentAffinity.isSome),
    ("bittorrent_protocol", p.bittorrentProtocol.isSome),
    ("limit_utp_rate", p.limitUtpRate.isSome),
    ("limit_tcp_overhead", p.limitTCPOverhead.isSome),
    ("limit_lan_peers", p.limitLanPeers.isSome),
    ("alt_dl_limit", p.altDlLimit.isSome),
    ("alt_up_limit", p.altUpLimit.isSome),
    ("scheduler_enabled", p.schedulerEnabled.isSome),
    ("schedule_from_hour", p.scheduleFromHour.isSome),
    ("schedule_from_min", p.scheduleFromMin.isSome),
    ("schedule_to_hour", p.scheduleToHour.isSome),
    ("schedule_to_min", p.scheduleToMin.isSome),
    ("scheduler_days", p.schedulerDays.isSome),
    ("dht", p.dHT.isSome),
    ("pex", p.peX.isSome),
    ("lsd", p.lSD.isSome),
    ("encryption", p.encryption.isSome),
    ("anonymous_mode", p.anonymousMode.isSome),
    ("proxy_type", p.proxyType.isSome),
    ("proxy_ip", p.proxyIP.isSome),
    ("proxy_port", p.proxyPort.isSome),
    ("proxy_peer_connections", p.proxyPeerConnections.isSome),
    ("proxy_auth_enabled", p.proxyAuthEnabled.isSome),
    ("proxy_username", p.proxyUsername.isSome),
    ("proxy_password", p.proxyPassword.isSome),
    ("proxy_torrents_only", p.proxyTorrentsOnly.isSome),
    ("ip_filter_enabled", p.iPFilterEnabled.isSome),
    ("ip_filter_path", p.iPFilterPath.isSome),
    ("ip_filter_trackers", p.iPFilterTrackers.isSome),
    ("web_ui_domain_list", p.webUIDomainList.isSome),
    ("web_ui_address", p.webUIAddress.isSome),
    ("web_ui_port", p.webUIPort.isSome),
    ("web_ui_upnp", p.webUIUpnp.isSome),
    ("web_ui_username", p.webUIUsername.isSome),
    ("web_ui_password", p.webUIPassword.isSome),
    ("web_ui_csrf_protection_enabled", p.webUICsrfProtectionEnabled.isSome),
    ("web_ui_clickjacking_protection_enabled", p.webUIClickjackingProtectionEnabled.isSome),
    ("web_ui_secure_cookie_enabled", p.webUISecureCookieEnabled.isSome),
    ("web_ui_max_auth_fail_count", p.webUIMaxAuthFailCount.isSome),
    ("web_ui_ban_duration", p.webUIBanDuration.isSome),
    ("web_ui_session_timeout", p.webUISessionTimeout.isSome),
    ("web_ui_host_header_validation_enabled", p.webUIHostHeaderValidationEnabled.isSome),
    ("bypass_local_auth", p.bypassLocalAuth.isSome),
    ("bypass_auth_subnet_whitelist_enabled", p.bypassAuthSubnetWhitelistEnabled.isSome),
    ("bypass_auth_subnet_whitelist", p.bypassAuthSubnetWhitelist.isSome),
    ("alternative_webui_enabled", p.alternativeWebuiEnabled.isSome),
    ("alternative_webui_path", p.alternativeWebuiPath.isSome),
    ("use_https", p.useHTTPS.isSome),
    ("web_ui_https_key_path", p.webUIHTTPSKeyPath.isSome),
    ("web_ui_https_cert_path", p.webUIHTTPSCertPath.isSome),
    ("dyndns_enabled", p.dynDNSEnabled.isSome),
    ("dyndns_service", p.dynDNSService.isSome),
    ("dyndns_username", p.dynDNSUsername.isSome),
    ("dyndns_password", p.dynDNSPassword.isSome),
    ("dyndns_domain", p.dynDNSDomain.isSome),
    ("rss_refresh_interval", p.rSSRefreshInterval.isSome),
    ("rss_max_articles_per_feed", p.rSSMaxArticlesPerFeed.isSome),
    ("rss_processing_enabled", p.rSSProcessingEnabled.isSome),
    ("rss_auto_downloading_enabled", p.rSSAutoDownloadingEnabled.isSome),
    ("rss_download_repack_proper_episodes", p.rSSDownloadRepackProperEpisodes.isSome),
    ("rss_smart_episode_filters", p.rSSSmartEpisodeFilters.isSome),
    ("add_trackers_enabled", p.addTrackersEnabled.isSome),
    ("add_trackers", p.addTrackers.isSome),
    ("web_ui_use_custom_http_headers_enabled", p.webUIUseCustomHTTPHeadersEnabled.isSome),
    ("web_ui_custom_http_headers", p.webUICustomHTTPHeaders.isSome),
    ("max_seeding_time_enabled", p.maxSeedingTimeEnabled.isSome),
    ("max_seeding_time", p.maxSeedingTime.isSome),
    ("announce_ip", p.announceIP.isSome),
    ("announce_to_all_tiers", p.announceToAllTiers.isSome),
    ("announce_to_all_trackers", p.announceToAllTrackers.isSome),
    ("async_io_threads", p.asyncIoThreads.isSome),
    ("banned_IPs", p.bannedIPs.isSome),
    ("checking_memory_use", p.checkingMemoryUse.isSome),
    ("current_interface_address", p.currentInterfaceAddress.isSome),
    ("current_network_interface", p.currentNetworkInterface.isSome),
    ("disk_cache", p.diskCache.isSome),
    ("disk_cache_ttl", p.diskCacheTTL.isSome),
    ("embedded_tracker_port", p.embeddedTrackerPort.isSome),
    ("enable_coalesce_read_write", p.enableCoalesceReadWrite.isSome),
    ("enable_embedded_tracker", p.enableEmbeddedTracker.isSome),
    ("enable_multi_connections_from_same_ip", p.enableMultiConnectionsFromSameIP.isSome),
    ("enable_os_cache", p.enableOSCache.isSome),
    ("enable_upload_suggestions", p.enableUploadSuggestions.isSome),
    ("file_pool_size", p.filePoolSize.isSome),
    ("outgoing_ports_max", p.outgoingPortsMax.isSome),
    ("outgoing_ports_min", p.outgoingPortsMin.isSome),
    ("recheck_completed_torrents", p.recheckCompletedTorrents.isSome),
    ("resolve_peer_countries", p.resolvePeerCountries.isSome),
    ("save_resume_data_interval", p.saveResumeDataInterval.isSome),
    ("send_buffer_low_watermark", p.sendBufferLowWatermark.isSome),
    ("send_buffer_watermark", p.sendBufferWatermark.isSome),
    ("send_buffer_watermark_factor", p.sendBufferWatermarkFactor.isSome),
    ("socket_backlog_size", p.socketBacklogSize.isSome),
    ("upload_choking_algorithm", p.uploadChokingAlgorithm.isSome),
    ("upload_slots_behavior", p.uploadSlotsBehavior.isSome),
    ("upnp_lease_duration", p.uPnPLeaseDuration.isSome),
    ("utp_tcp_mixed_mode", p.uTPTCPMixedMode.isSome)
  ]

/-- The json keys of ApplicationPreferences in declaration order. -/
def applicationPreferencesKeys : List String :=
  [
    "locale",
    "create_subfolder_enabled",
    "start_paused_enabled",
    "auto_delete_mode",
    "preallocate_all",
    "incomplete_files_ext",
    "auto_tmm_enabled",
    "torrent_changed_tmm_enabled",
    "save_path_changed_tmm_enabled",
    "category_changed_tmm_enabled",
    "save_path",
    "temp_path_enabled",
    "temp_path",
    "scan_dirs",
    "export_dir",
    "export_dir_fin",
    "mail_notification_enabled",
    "mail_notification_sender",
    "mail_notification_email",
    "mail_notification_smtp",
    "mail_notification_ssl_enabled",
    "mail_notification_auth_enabled",
    "mail_notification_username",
    "mail_notification_password",
    "autorun_enabled",
    "autorun_program",
    "queueing_enabled",
    "max_active_downloads",
    "max_active_torrents",
    "max_active_uploads",
    "dont_count_slow_torrents",
    "slow_torrent_dl_rate_threshold",
    "slow_torrent_ul_rate_threshold",
    "slow_torrent_inactive_timer",
    "max_ratio_enabled",
    "max_ratio",
    "max_ratio_act",
    "listen_port",
    "upnp",
    "random_port",
    "dl_limit",
    "up_limit",
    "max_connec",
    "max_connec_per_torrent",
    "max_uploads",
    "max_uploads_per_torrent",
    "stop_tracker_timeout",
    "enable_piece_extent_affinity",
    "bittorrent_protocol",
    "limit_utp_rate",
    "limit_tcp_overhead",
    "limit_lan_peers",
    "alt_dl_limit",
    "alt_up_limit",
    "scheduler_enabled",
    "schedule_from_hour",
    "schedule_from_min",
    "schedule_to_hour",
    "schedule_to_min",
    "scheduler_days",
    "dht",
    "pex",
    "lsd",
    "encryption",
    "anonymous_mode",
    "proxy_type",
    "proxy_ip",
    "proxy_port",
    "proxy_peer_connections",
    "proxy_auth_enabled",
    "proxy_username",
    "proxy_password",
    "proxy_torrents_only",
    "ip_filter_enabled",
    "ip_filter_path",
    "ip_filter_trackers",
    "web_ui_domain_list",
    "web_ui_address",
    "web_ui_port",
    "web_ui_upnp",
    "web_ui_username",
    "web_ui_password",
    "web_ui_csrf_protection_enabled",
    "web_ui_clickjacking_protection_enabled",
    "web_ui_secure_cookie_enabled",
    "web_ui_max_auth_fail_count",
    "web_ui_ban_duration",
    "web_ui_session_timeout",
    "web_ui_host_header_validation_enabled",
    "bypass_local_auth",
    "bypass_auth_subnet_whitelist_enabled",
    "bypass_auth_subnet_whitelist",
    "alternative_webui_enabled",
    "alternative_webui_path",
    "use_https",
    "web_ui_https_key_path",
    "web_ui_https_cert_path",
    "dyndns_enabled",
    "dyndns_service",
    "dyndns_username",
    "dyndns_password",
    "dyndns_domain",
    "rss_refresh_interval",
    "rss_max_articles_per_feed",
    "rss_processing_enabled",
    "rss_auto_downloading_enabled",
    "rss_download_repack_proper_episodes",
    "rss_smart_episode_filters",
    "add_trackers_enabled",
    "add_trackers",
    "web_ui_use_custom_http_headers_enabled",
    "web_ui_custom_http_headers",
    "max_seeding_time_enabled",
    "max_seeding_time",
    "announce_ip",
    "announce_to_all_tiers",
    "announce_to_all_trackers",
    "async_io_threads",
    "banned_IPs",
    "checking_memory_use",
    "current_interface_address",
    "current_network_interface",
    "disk_cache",
    "disk_cache_ttl",
    "embedded_tracker_port",
    "enable_coalesce_read_write",
    "enable_embedded_tracker",
    "enable_multi_connections_from_same_ip",
    "enable_os_cache",
    "enable_upload_suggestions",
    "file_pool_size",
    "outgoing_ports_max",
    "outgoing_ports_min",
    "recheck_completed_torrents",
    "resolve_peer_countries",
    "save_resume_data_interval",
    "send_buffer_low_watermark",
    "send_buffer_watermark",
    "send_buffer_watermark_factor",
    "socket_backlog_size",
    "upload_choking_algorithm",
    "upload_slots_behavior",
    "upnp_lease_duration",
    "utp_tcp_mixed_mode"
  ]

/-- Keys of the wire object produced by marshaling a preferences value:
exactly the emitted fields, in declaration order. -/
def marshalKeys (p : ApplicationPreferences) : List String :=
  ((applicationPreferencesEntries p).filter (fun e => e.2)).map (fun e => e.1)

theorem applicationPreferencesEntries_keys (p : ApplicationPreferences) :
    (applicationPreferencesEntries p).map Prod.fst = applicationPreferencesKeys := rfl

theorem applicationPreferencesKeys_nodup : applicationPreferencesKeys.Nodup := by decide

theorem filter_keys_not_mem {l : List (String × Bool)} {k : String}
    (hnd : (l.map Prod.fst).Nodup) (h : (k, false) ∈ l) :
    k ∉ (l.filter (fun e => e.2)).map Prod.fst := by
  induction l with
  | nil => simp at h
  | cons e rest ih =>
    obtain ⟨k1, b1⟩ := e
    simp only [List.map_cons, List.nodup_cons] at hnd
    obtain ⟨hhead, hrest⟩ := hnd
    rcases List.mem_cons.mp h with heq | hmem
    · have hk1 : k1 = k := (congrArg Prod.fst heq).symm
      have hb1 : b1 = false := (congrArg Prod.snd heq).symm
      subst hk1
      subst hb1
      simp only [List.filter_cons, Bool.false_eq_true, if_false]
      intro hk
      obtain ⟨q, hq1, hq2⟩ := List.mem_map.mp hk
      exact hhead (List.mem_map.mpr ⟨q, List.mem_of_mem_filter hq1, hq2⟩)
    · have hk := ih hrest hmem
      have hkmem : k ∈ rest.map Prod.fst :=
        List.mem_map.mpr ⟨(k, false), hmem, rfl⟩
      by_cases hb : b1 = true
      · subst hb
        simp only [List.filter_cons, if_pos rfl, List.map_cons]
        intro hcon
        rcases List.mem_cons.mp hcon with hc1 | hc2
        · obtain rfl : k = k1 := by simpa using hc1
          exact hhead hkmem
        · exact hk hc2
      · have hb1 : b1 = false := by
          cases b1 with
          | false => rfl
          | true => exact absurd rfl hb
        subst hb1
        simp only [List.filter_cons, Bool.false_eq_true, if_false]
        exact hk

/-- A preferences value with only AlternativeWebuiEnabled set. -/
def onlyAlternativeWebui : ApplicationPreferences := { alternativeWebuiEnabled := some true }

/-- C8: a field whose emission flag is false (a nil pointer, or a nil or
empty scan_dirs map) never contributes its key to the marshaled object;
and the value with only AlternativeWebuiEnabled set serializes to exactly
the single key alternative_webui_enabled. -/
theorem C8_partial_update_keys (p : ApplicationPreferences) (k : String)
    (habs : (k, false) ∈ applicationPreferencesEntries p) :
    k ∉ marshalKeys p ∧
      marshalKeys onlyAlternativeWebui = ["alternative_webui_enabled"] := by
  constructor
  · have hnd : ((applicationPreferencesEntries p).map Prod.fst).Nodup := by
      rw [applicationPreferencesEntries_keys]
      exact applicationPreferencesKeys_nodup
    exact filter_keys_not_mem hnd habs
  · decide

/-- Witness for C8_partial_update_keys: the nil locale field of the
single-field value contributes no key, and that value serializes to
exactly one key. -/
theorem C8_partial_update_keys_witness :
    ("locale", false) ∈ applicationPreferencesEntries onlyAlternativeWebui ∧
      ("locale" ∉ marshalKeys onlyAlternativeWebui ∧
        marshalKeys onlyAlternativeWebui = ["alternative_webui_enabled"]) :=
  ⟨by decide, C8_partial_update_keys onlyAlternativeWebui "locale" (by decide)⟩

/-! ## Exact fractions and the float64 steps of Duration.Seconds

Duration.Seconds in Go computes float64(sec) + float64(nsec)/1e9 (one
float64 rounding for the division and one for the addition; the two
integer-to-float conversions are exact at these magnitudes for sec and
always for nsec), and the transcoders truncate the result with int(...).
Exact values are carried as unnormalized fractions; fl53frac performs one
IEEE-754 round-to-nearest-even step at 53 significand bits. -/

/-- Unnormalized fraction num / den (den kept positive by construction). -/
structure Frac where
  num : Int
  den : Nat
deriving DecidableEq, Repr

/-- Round a / b (b positive) to the nearest integer, ties to even. -/
def roundHalfEvenNat (a b : Nat) : Nat :=
  if 2 * (a % b) < b then a / b
  else if b < 2 * (a % b) then a / b + 1
  else if a / b % 2 = 0 then a / b else a / b + 1

/-- Exponent e with 2 ^ e ≤ a / b < 2 ^ (e + 1), for positive a and b
below 2 ^ 128. -/
def f64exp (a b : Nat) : Int :=
  if b * 2 ^ ((natLog2 a : Int) - (natLog2 b : Int)).toNat ≤
      a * 2 ^ (-((natLog2 a : Int) - (natLog2 b : Int))).toNat then
    (natLog2 a : Int) - (natLog2 b : Int)
  else (natLog2 a : Int) - (natLog2 b : Int) - 1

/-- Significand of the float64 nearest to a / b: the fraction scaled to
52 fractional bits and rounded to nearest, ties to even. -/
def fl53mag (a b : Nat) : Nat :=
  roundHalfEvenNat (a * 2 ^ (52 - f64exp a b).toNat)
    (b * 2 ^ (-(52 - f64exp a b)).toNat)

/-- One IEEE-754 double rounding step: the value of the fraction rounded
to 53 significand bits, ties to even (normal finite range; overflow and
subnormals do not arise at the magnitudes used here). -/
def fl53frac (x : Frac) : Frac :=
  if x.num = 0 then ⟨0, 1⟩
  else if 0 ≤ 52 - f64exp x.num.natAbs x.den then
    ⟨if x.num < 0 then -(fl53mag x.num.natAbs x.den : Int)
      else (fl53mag x.num.natAbs x.den : Int),
      2 ^ (52 - f64exp x.num.natAbs x.den).toNat⟩
  else
    ⟨(if x.num < 0 then -(fl53mag x.num.natAbs x.den : Int)
      else (fl53mag x.num.natAbs x.den : Int)) *
      2 ^ (-(52 - f64exp x.num.natAbs x.den)).toNat, 1⟩

/-- Exact sum of two fractions. -/
def fracAdd (x y : Frac) : Frac := ⟨x.num * y.den + y.num * x.den, x.den * y.den⟩

/-- Go int(f): truncation toward zero. -/
def fracTrunc (x : Frac) : Int := x.num.tdiv x.den

/-- Two-complement wrap of an int64 computation (Go multiplication
overflow semantics). -/
def goInt64Wrap (x : Int) : Int := (x + 2 ^ 63).emod (2 ^ 64) - 2 ^ 63

/-- time.Duration(w) * time.Second: the wire second count scaled to
nanoseconds with int64 wrap-around. -/
def durationFromSeconds (w : Int) : Int := goInt64Wrap (w * 1000000000)

/-- int(d.Seconds()): Go splits d into whole seconds and nanoseconds
(both truncated toward zero), converts to float64, divides the nanosecond
part by 1e9 (one rounding), adds (one rounding) and truncates. -/
def durationSecondsTrunc (d : Int) : Int :=
  fracTrunc (fl53frac (fracAdd ⟨floatRoundInt (d.tdiv 1000000000), 1⟩
    (fl53frac ⟨d.tmod 1000000000, 1000000000⟩)))

theorem roundHalfEvenNat_den_one (a : Nat) : roundHalfEvenNat a 1 = a := by
  unfold roundHalfEvenNat
  rw [Nat.mod_one]
  simp

theorem floatRoundInt_small {i : Int} (hlo : -(2 ^ 53) < i) (hhi : i < 2 ^ 53) :
    floatRoundInt i = i := by
  unfold floatRoundInt
  by_cases h : 0 ≤ i
  · rw [if_pos h, float64RoundNat_of_lt (by omega)]
    omega
  · rw [if_neg h, float64RoundNat_of_lt (by omega)]
    omega

theorem f64exp_int {a : Nat} (h1 : 1 ≤ a) (h2 : a < 2 ^ 128) :
    f64exp a 1 = (natLog2 a : Int) := by
  obtain ⟨hl, hr⟩ := natLog2_spec h1 h2
  unfold f64exp
  have hz : natLog2 1 = 0 := by decide
  rw [hz]
  simp only [Nat.cast_zero, sub_zero, Int.toNat_natCast]
  have ht2 : (-(natLog2 a : Int)).toNat = 0 := by omega
  rw [ht2, if_pos (by simpa using hl)]

theorem natLog2_le_52 {a : Nat} (h1 : 1 ≤ a) (ha : a < 2 ^ 53) : natLog2 a ≤ 52 := by
  obtain ⟨hl, hr⟩ := natLog2_spec h1 (by omega)
  by_contra hc
  have : 2 ^ 53 ≤ 2 ^ natLog2 a := Nat.pow_le_pow_right (by norm_num) (by omega)
  omega

theorem fracTrunc_fl53frac_int {z : Int} (habs : z.natAbs < 2 ^ 53) :
    fracTrunc (fl53frac ⟨z, 1⟩) = z := by
  by_cases hz : z = 0
  · subst hz
    decide
  · have h1 : 1 ≤ z.natAbs := by omega
    have hexp : f64exp z.natAbs 1 = (natLog2 z.natAbs : Int) := f64exp_int h1 (by omega)
    have h52 : natLog2 z.natAbs ≤ 52 := natLog2_le_52 h1 habs
    have hmag : fl53mag z.natAbs 1 = z.natAbs * 2 ^ (52 - natLog2 z.natAbs) := by
      unfold fl53mag
      rw [hexp]
      have hs1 : ((52 : Int) - (natLog2 z.natAbs : Int)).toNat = 52 - natLog2 z.natAbs := by
        omega
      have hs2 : (-((52 : Int) - (natLog2 z.natAbs : Int))).toNat = 0 := by omega
      rw [hs1, hs2, pow_zero, Nat.one_mul, roundHalfEvenNat_den_one]
    unfold fl53frac
    rw [if_neg hz]
    simp only [hexp]
    rw [if_pos (by omega)]
    unfold fracTrunc
    simp only [hmag]
    have hsN : ((52 : Int) - (natLog2 z.natAbs : Int)).toNat = 52 - natLog2 z.natAbs := by
      omega
    rw [hsN]
    have hpow : (((2 : Nat) ^ (52 - natLog2 z.natAbs) : Nat) : Int) ≠ 0 := by positivity
    by_cases hneg : z < 0
    · rw [if_pos hneg]
      rw [Nat.cast_mul, Int.neg_tdiv, Int.mul_tdiv_cancel _ hpow]
      omega
    · rw [if_neg hneg]
      rw [Nat.cast_mul, Int.mul_tdiv_cancel _ hpow]
      omega

theorem duration_roundtrip {w : Int} (hlo : -(2 ^ 31) < w) (hhi : w < 2 ^ 31) :
    durationSecondsTrunc (durationFromSeconds w) = w := by
  have hwrap : durationFromSeconds w = w * 1000000000 := by
    unfold durationFromSeconds goInt64Wrap
    have hmod : (w * 1000000000 + 2 ^ 63).emod (2 ^ 64) = w * 1000000000 + 2 ^ 63 :=
      Int.emod_eq_of_lt (by omega) (by omega)
    rw [hmod]
    ring
  rw [hwrap]
  unfold durationSecondsTrunc
  have hsec : (w * 1000000000).tdiv 1000000000 = w := Int.mul_tdiv_cancel w (by norm_num)
  have hnsec : (w * 1000000000).tmod 1000000000 = 0 := Int.mul_tmod_left w 1000000000
  rw [hsec, hnsec]
  have hz : fl53frac ⟨0, 1000000000⟩ = ⟨0, 1⟩ := by
    unfold fl53frac
    rw [if_pos rfl]
  rw [hz]
  have hfw : floatRoundInt w = w := floatRoundInt_small (by omega) (by omega)
  rw [hfw]
  have hadd : fracAdd ⟨w, 1⟩ ⟨0, 1⟩ = ⟨w, 1⟩ := by
    simp [fracAdd]
  rw [hadd]
  exact fracTrunc_fl53frac_int (by omega)

/-! ## Torrent listing records (TorrentInfos, src/unnamed/part_000)

The wire record carries the integer and string fields exactly as the JSON
object does (float64 passthrough fields as their decoded values, modelled
by exact fractions).  UnmarshalJSON turns epoch integers into instants
(modelled by the same integer), byte counts into cunits bit counts through
float64, rate fields into Speed values, second counts into nanosecond
durations, the tag string into a tag list, and the magnet URI string
through url.Parse, whose error aborts the decode; the parsed URL is
modelled by its formatted string through the canonical net/url fragment
above.  MarshalJSON performs the reverse conversions field by field. -/

/-- Wire form of one torrent listing entry, in struct order. -/
structure WireTorrentInfo where
  addedOn : Int
  amountLeft : Int
  autoTMM : Bool
  availability : Frac
  category : String
  completed : Int
  completionOn : Int
  contentPath : String
  dlLimit : Int
  dlspeed : Int
  downloaded : Int
  downloadedSession : Int
  eta : Int
  fLPiecePrio : Bool
  forceStart : Bool
  hash : String
  isPrivate : Bool
  lastActivity : Int
  magnetURI : String
  maxRatio : Frac
  maxSeedingTime : Int
  name : String
  numComplete : Int
  numIncomplete : Int
  numLeechs : Int
  numSeeds : Int
  priority : Int
  progress : Frac
  ratio : Frac
  ratioLimit : Frac
  reannounce : Int
  savePath : String
  seedingTime : Int
  seedingTimeLimit : Int
  seenComplete : Int
  seqDl : Bool
  size : Int
  state : String
  superSeeding : Bool
  tags : String
  timeActive : Int
  totalSize : Int
  tracker : String
  upLimit : Int
  uploaded : Int
  uploadedSession : Int
  upspeed : Int

/-- Decoded torrent listing entry (TorrentInfos), in struct order. -/
structure TorrentInfos where
  addedOn : Int
  amountLeft : Nat
  autoTMM : Bool
  availability : Frac
  category : String
  completed : Nat
  completionOn : Int
  contentPath : String
  downloadSpeedLimit : Speed
  downloadSpeed : Speed
  downloaded : Nat
  downloadedSession : Nat
  eta : Int
  firstLastPiecePrio : Bool
  forceStart : Bool
  hash : String
  isPrivate : Bool
  lastActivity : Int
  magnetURI : String
  maxRatio : Frac
  maxSeedingTime : Int
  name : String
  numComplete : Int
  numIncomplete : Int
  numLeechs : Int
  numSeeds : Int
  priority : Int
  progress : Frac
  ratio : Frac
  ratioLimit : Frac
  reannounce : Int
  savePath : String
  seedingTime : Int
  seedingTimeLimit : Int
  seenComplete : Int
  sequentialDownload : Bool
  size : Nat
  state : String
  superSeeding : Bool
  tags : List String
  timeActive : Int
  totalSize : Nat
  tracker : String
  uploadSpeedLimit : Speed
  uploaded : Nat
  uploadedSession : Nat
  uploadSpeed : Speed

/-- TorrentInfos.UnmarshalJSON: the url.Parse of the magnet URI (whose
error is returned) and the field conversions. -/
def TorrentInfos.unmarshal (w : WireTorrentInfo) : Except String TorrentInfos :=
  match goUrlParseFormat w.magnetURI with
  | none => .error "failed to parse magnet URI"
  | some u => .ok {
      addedOn := w.addedOn
      amountLeft := cunitsImportInBytes (floatRoundInt w.amountLeft)
      autoTMM := w.autoTMM
      availability := w.availability
      category := w.category
      completed := cunitsImportInBytes (floatRoundInt w.completed)
      completionOn := w.completionOn
      contentPath := w.contentPath
      downloadSpeedLimit := GetSpeedFromBytes w.dlLimit
      downloadSpeed := GetSpeedFromBytes w.dlspeed
      downloaded := cunitsImportInBytes (floatRoundInt w.downloaded)
      downloadedSession := cunitsImportInBytes (floatRoundInt w.downloadedSession)
      eta := durationFromSeconds w.eta
      firstLastPiecePrio := w.fLPiecePrio
      forceStart := w.forceStart
      hash := w.hash
      isPrivate := w.isPrivate
      lastActivity := w.lastActivity
      magnetURI := u
      maxRatio := w.maxRatio
      maxSeedingTime := durationFromSeconds w.maxSeedingTime
      name := w.name
      numComplete := w.numComplete
      numIncomplete := w.numIncomplete
      numLeechs := w.numLeechs
      numSeeds := w.numSeeds
      priority := w.priority
      progress := w.progress
      ratio := w.ratio
      ratioLimit := w.ratioLimit
      reannounce := durationFromSeconds w.reannounce
      savePath := w.savePath
      seedingTime := durationFromSeconds w.seedingTime
      seedingTimeLimit := durationFromSeconds w.seedingTimeLimit
      seenComplete := w.seenComplete
      sequentialDownload := w.seqDl
      size := cunitsImportInBytes (floatRoundInt w.size)
      state := w.state
      superSeeding := w.superSeeding
      tags := splitTags w.tags
      timeActive := durationFromSeconds w.timeActive
      totalSize := cunitsImportInBytes (floatRoundInt w.totalSize)
      tracker := w.tracker
      uploadSpeedLimit := GetSpeedFromBytes w.upLimit
      uploaded := cunitsImportInBytes (floatRoundInt w.uploaded)
      uploadedSession := cunitsImportInBytes (floatRoundInt w.uploadedSession)
      uploadSpeed := GetSpeedFromBytes w.upspeed }

/-- TorrentInfos.MarshalJSON, field conversions. -/
def TorrentInfos.marshal (t : TorrentInfos) : WireTorrentInfo where
  addedOn := t.addedOn
  amountLeft := (cunitsBytesTrunc t.amountLeft : Int)
  autoTMM := t.autoTMM
  availability := t.availability
  category := t.category
  completed := (cunitsBytesTrunc t.completed : Int)
  completionOn := t.completionOn
  contentPath := t.contentPath
  dlLimit := t.downloadSpeedLimit.ToBytes
  dlspeed := t.downloadSpeed.ToBytes
  downloaded := (cunitsBytesTrunc t.downloaded : Int)
  downloadedSession := (cunitsBytesTrunc t.downloadedSession : Int)
  eta := durationSecondsTrunc t.eta
  fLPiecePrio := t.firstLastPiecePrio
  forceStart := t.forceStart
  hash := t.hash
  isPrivate := t.isPrivate
  lastActivity := t.lastActivity
  magnetURI := t.magnetURI
  maxRatio := t.maxRatio
  maxSeedingTime := durationSecondsTrunc t.maxSeedingTime
  name := t.name
  numComplete := t.numComplete
  numIncomplete := t.numIncomplete
  numLeechs := t.numLeechs
  numSeeds := t.numSeeds
  priority := t.priority
  progress := t.progress
  ratio := t.ratio
  ratioLimit := t.ratioLimit
  reannounce := durationSecondsTrunc t.reannounce
  savePath := t.savePath
  seedingTime := durationSecondsTrunc t.seedingTime
  seedingTimeLimit := durationSecondsTrunc t.seedingTimeLimit
  seenComplete := t.seenComplete
  seqDl := t.sequentialDownload
  size := (cunitsBytesTrunc t.size : Int)
  state := t.state
  superSeeding := t.superSeeding
  tags := joinTags t.tags
  timeActive := durationSecondsTrunc t.timeActive
  totalSize := (cunitsBytesTrunc t.totalSize : Int)
  tracker := t.tracker
  upLimit := t.uploadSpeedLimit.ToBytes
  uploaded := (cunitsBytesTrunc t.uploaded : Int)
  uploadedSession := (cunitsBytesTrunc t.uploadedSession : Int)
  upspeed := t.uploadSpeed.ToBytes

/-- Wire integer that survives the byte-count conversion: nonnegative,
within the uint64 bit range, exactly float64-representable. -/
def goodByteWire (n : Int) : Prop := 0 ≤ n ∧ n < 2 ^ 61 ∧ floatRoundInt n = n

/-- Wire integer of a rate field: the sentinel -1 or a good byte count. -/
def goodSpeedWire (n : Int) : Prop := n = -1 ∨ goodByteWire n

/-- Wire second count whose duration conversion is exact. -/
def goodDurationWire (n : Int) : Prop := -(2 ^ 31) < n ∧ n < 2 ^ 31

instance (n : Int) : Decidable (goodByteWire n) := by
  unfold goodByteWire
  infer_instance

instance (n : Int) : Decidable (goodSpeedWire n) := by
  unfold goodSpeedWire
  infer_instance

instance (n : Int) : Decidable (goodDurationWire n) := by
  unfold goodDurationWire
  infer_instance

theorem byte_field_roundtrip {n : Int} (h : goodByteWire n) :
    (cunitsBytesTrunc (cunitsImportInBytes (floatRoundInt n)) : Int) = n := by
  obtain ⟨h0, h61, hfix⟩ := h
  have hnat : float64RoundNat n.toNat = n.toNat := floatRoundInt_fix_nat h0 hfix
  rw [hfix]
  have hbits : cunitsImportInBytes n = 8 * n.toNat := by
    unfold cunitsImportInBytes goFloatToUint64
    by_cases hc : n * 8 < 2 ^ 63
    · rw [if_pos hc, if_pos (by omega)]
      have hmod : (n * 8).emod (2 ^ 64) = n * 8 := Int.emod_eq_of_lt (by omega) (by omega)
      omega
    · rw [if_neg hc, if_pos (by omega)]
      omega
  rw [hbits]
  unfold cunitsBytesTrunc
  rw [float64RoundNat_mul8 hnat (by omega)]
  omega

theorem speed_field_roundtrip {n : Int} (h : goodSpeedWire n) :
    (GetSpeedFromBytes n).ToBytes = n := by
  rcases h with rfl | ⟨h0, h61, hfix⟩
  · decide
  · exact speed_roundtrip h0 h61 hfix

theorem duration_field_roundtrip {n : Int} (h : goodDurationWire n) :
    durationSecondsTrunc (durationFromSeconds n) = n :=
  duration_roundtrip h.1 h.2

theorem joinTags_splitTags (t : String) : joinTags (splitTags t) = t :=
  goJoin_goSplit t ", " (by decide)

/-- Wire record whose downloaded counter exceeds the exact float64
range. -/
def torrentWireBad : WireTorrentInfo :=
  ⟨0, 0, false, ⟨0, 1⟩, "x", 0, 0, "x", 0, 0, 9007199254740993, 0, 0, false, false, "x", false, 0, "magnet:?xt=a", ⟨0, 1⟩, 0, "x", 0, 0, 0, 0, 0, ⟨0, 1⟩, ⟨0, 1⟩, ⟨0, 1⟩, 0, "x", 0, 0, 0, false, 0, "x", false, "", 0, 0, "x", 0, 0, 0, 0⟩

/-- C2, counterexample: the wire record whose downloaded counter is
2 ^ 53 + 1 (and whose magnet URI is canonical) is not reproduced by encode
after decode; the float64 byte conversion rounds the field to 2 ^ 53. -/
theorem C2_counterexample :
    ((TorrentInfos.unmarshal torrentWireBad).map TorrentInfos.marshal).toOption.map
        WireTorrentInfo.downloaded = some 9007199254740992 ∧
      torrentWireBad.downloaded = 9007199254740993 ∧
      (TorrentInfos.unmarshal torrentWireBad).map TorrentInfos.marshal ≠
        Except.ok torrentWireBad := by
  refine ⟨by decide, by decide, fun h => ?_⟩
  have hd : (some (9007199254740992 : Int)) = some (9007199254740993 : Int) := by
    rw [← (by decide : ((TorrentInfos.unmarshal torrentWireBad).map
        TorrentInfos.marshal).toOption.map WireTorrentInfo.downloaded =
        some (9007199254740992 : Int))]
    rw [← (by decide : (Except.ok torrentWireBad :
        Except String WireTorrentInfo).toOption.map WireTorrentInfo.downloaded =
        some (9007199254740993 : Int))]
    rw [h]
  exact absurd (Option.some.inj hd) (by decide)

/-- C2, amended: decode succeeds and encode after decode reproduces every
torrent listing wire record field for field (the typed wire record
abstracts from JSON key order, and the tag string is compared after the
documented comma-space-separator normalization, which the split-then-join
performs for every input string), provided each byte and rate integer is
exactly float64-representable and below 2 ^ 61 (rates may also be the -1
sentinel), each second count is below 2 ^ 31 in magnitude, and the magnet
URI lies in the canonical net/url fragment (fixed by url.Parse followed by
String); outside that fragment url.Parse can fail, aborting the decode, or
String can normalize the URI. -/
theorem C2_torrent_record_roundtrip (w : WireTorrentInfo)
    (h_amountLeft : goodByteWire w.amountLeft)
    (h_completed : goodByteWire w.completed)
    (h_dlLimit : goodSpeedWire w.dlLimit)
    (h_dlspeed : goodSpeedWire w.dlspeed)
    (h_downloaded : goodByteWire w.downloaded)
    (h_downloadedSession : goodByteWire w.downloadedSession)
    (h_eta : goodDurationWire w.eta)
    (h_maxSeedingTime : goodDurationWire w.maxSeedingTime)
    (h_reannounce : goodDurationWire w.reannounce)
    (h_seedingTime : goodDurationWire w.seedingTime)
    (h_seedingTimeLimit : goodDurationWire w.seedingTimeLimit)
    (h_size : goodByteWire w.size)
    (h_timeActive : goodDurationWire w.timeActive)
    (h_totalSize : goodByteWire w.totalSize)
    (h_upLimit : goodSpeedWire w.upLimit)
    (h_uploaded : goodByteWire w.uploaded)
    (h_uploadedSession : goodByteWire w.uploadedSession)
    (h_upspeed : goodSpeedWire w.upspeed)
    (h_magnetURI : goUrlParseFormat w.magnetURI = some w.magnetURI) :
    (TorrentInfos.unmarshal w).map TorrentInfos.marshal = Except.ok w := by
  cases w
  simp only [TorrentInfos.unmarshal]
  rw [h_magnetURI]
  simp only [Except.map, TorrentInfos.marshal, Except.ok.injEq, WireTorrentInfo.mk.injEq]
  exact ⟨trivial,
    byte_field_roundtrip h_amountLeft,
    trivial,
    trivial,
    trivial,
    byte_field_roundtrip h_completed,
    trivial,
    trivial,
    speed_field_roundtrip h_dlLimit,
    speed_field_roundtrip h_dlspeed,
    byte_field_roundtrip h_downloaded,
    byte_field_roundtrip h_downloadedSession,
    duration_field_roundtrip h_eta,
    trivial,
    trivial,
    trivial,
    trivial,
    trivial,
    trivial,
    trivial,
    duration_field_roundtrip h_maxSeedingTime,
    trivial,
    trivial,
    trivial,
    trivial,
    trivial,
    trivial,
    trivial,
    trivial,
    trivial,
    duration_field_roundtrip h_reannounce,
    trivial,
    duration_field_roundtrip h_seedingTime,
    duration_field_roundtrip h_seedingTimeLimit,
    trivial,
    trivial,
    byte_field_roundtrip h_size,
    trivial,
    trivial,
    joinTags_splitTags _,
    duration_field_roundtrip h_timeActive,
    byte_field_roundtrip h_totalSize,
    trivial,
    speed_field_roundtrip h_upLimit,
    byte_field_roundtrip h_uploaded,
    byte_field_roundtrip h_uploadedSession,
    speed_field_roundtrip h_upspeed⟩

/-- Sample benign wire record for the C2 witness. -/
def torrentWireSample : WireTorrentInfo :=
  ⟨0, 0, false, ⟨0, 1⟩, "x", 0, 0, "x", 0, 0, 0, 0, 0, false, false, "x", false, 0, "magnet:?xt=a", ⟨0, 1⟩, 0, "x", 0, 0, 0, 0, 0, ⟨0, 1⟩, ⟨0, 1⟩, ⟨0, 1⟩, 0, "x", 0, 0, 0, false, 0, "x", false, "a, b", 0, 0, "x", 0, 0, 0, 0⟩

/-- Witness for C2_torrent_record_roundtrip at a concrete benign record. -/
theorem C2_torrent_record_roundtrip_witness :
    (goodByteWire torrentWireSample.amountLeft ∧
      goodByteWire torrentWireSample.completed ∧
      goodSpeedWire torrentWireSample.dlLimit ∧
      goodSpeedWire torrentWireSample.dlspeed ∧
      goodByteWire torrentWireSample.downloaded ∧
      goodByteWire torrentWireSample.downloadedSession ∧
      goodDurationWire torrentWireSample.eta ∧
      goodDurationWire torrentWireSample.maxSeedingTime ∧
      goodDurationWire torrentWireSample.reannounce ∧
      goodDurationWire torrentWireSample.seedingTime ∧
      goodDurationWire torrentWireSample.seedingTimeLimit ∧
      goodByteWire torrentWireSample.size ∧
      goodDurationWire torrentWireSample.timeActive ∧
      goodByteWire torrentWireSample.totalSize ∧
      goodSpeedWire torrentWireSample.upLimit ∧
      goodByteWire torrentWireSample.uploaded ∧
      goodByteWire torrentWireSample.uploadedSession ∧
      goodSpeedWire torrentWireSample.upspeed ∧
      goUrlParseFormat torrentWireSample.magnetURI = some torrentWireSample.magnetURI) ∧
      (TorrentInfos.unmarshal torrentWireSample).map TorrentInfos.marshal =
        Except.ok torrentWireSample := by
  refine ⟨by decide, ?_⟩
  apply C2_torrent_record_roundtrip torrentWireSample <;> decide

end QbtApi
